import Mathlib

/-!
Verification of the wamp-core frame codec.

A shallow embedding of the `wamp-core` Rust crate: the per-message-type
serializers and deserializers (`src/messages/*.rs`), the `Messages` tagged
dispatcher (`src/messages/mod.rs`), the role-direction matrix, and the
request-id counter (`src/factories.rs`), together with theorems checking the
crate's specification against this embedding.

JSON values are modelled by the inductive `Value` below.  Numbers are
modelled as integers: the crate's wire payloads that the properties under
study exercise are tags, identifiers and containers, and a non-integral
number behaves exactly like any other non-`u64` value (`as_u64` returns
`None`), which the model reproduces through negative integers and
non-number values.

Serde's `SeqAccess` is modelled by explicit state passing: a deserializer
helper consumes a prefix of a `List Value` and returns the parsed component
together with the remaining elements.  Serde errors are modelled by their
message strings (`serde::de::Error::custom` carries only a message).
-/

/-- JSON value, mirroring `serde_json::Value` (numbers as integers). -/
inductive Value where
  | null
  | bool (b : Bool)
  | num (n : Int)
  | str (s : String)
  | arr (elems : List Value)
  | obj (fields : List (String × Value))
deriving Repr

/-- Source `serde_json::Value::is_object`. -/
def Value.isObject : Value → Bool
  | .obj _ => true
  | _ => false

/-- Source `serde_json::Value::is_array`. -/
def Value.isArray : Value → Bool
  | .arr _ => true
  | _ => false

/-- Source `serde_json::Value::is_null`. -/
def Value.isNull : Value → Bool
  | .null => true
  | _ => false

/-- Source `serde_json::Value::as_u64`: the numeric value when it is integral,
non-negative and below `2^64`. -/
def Value.asU64 : Value → Option Nat
  | .num (.ofNat m) => if m < 2 ^ 64 then some m else none
  | _ => none

/-- Parse one wire element as a `u64` (serde `next_element::<u64>()`): the
element must be a non-negative integral number below `2^64`. -/
def parseU64 (v : Value) : Except String Nat :=
  match v with
  | .num (.ofNat m) =>
    if m < 2 ^ 64 then .ok m else .error "invalid type: expected u64"
  | _ => .error "invalid type: expected u64"

/-- Parse one wire element as a `String` (serde `next_element::<String>()`). -/
def parseString (v : Value) : Except String String :=
  match v with
  | .str s => .ok s
  | _ => .error "invalid type: expected a string"

/-- Parse one wire element as a raw `Value` (serde `next_element::<Value>()`),
which always succeeds. -/
def parseValue (v : Value) : Except String Value :=
  .ok v

/-- Source `helpers::deser_seq_element`: read the next sequence element, failing with
the given custom message when the sequence is exhausted, and with the
element parser's own message when the element has the wrong type. -/
def deserSeqElement (parse : Value → Except String α) (error : String) :
    List Value → Except String (α × List Value)
  | [] => .error error
  | v :: rest => do
    let a ← parse v
    .ok (a, rest)

/-- Source `helpers::deser_args_kwargs_element`: a missing trailing element becomes
`Value::Null`; a present element is accepted when it `is_object` or
`is_array` and rejected with the custom message otherwise. -/
def deserArgsKwargsElement (error : String) :
    List Value → Except String (Value × List Value)
  | [] => .ok (.null, [])
  | v :: rest =>
    if v.isObject || v.isArray then .ok (v, rest) else .error error

/-- The message produced by `helpers::validate_id` on a tag mismatch:
`format!("{name} has invalid ID {id}. The ID for {name} must be {}", M::ID)`. -/
def invalidIdMsg (name : String) (id expected : Nat) : String :=
  name ++ " has invalid ID " ++ toString id ++ ". The ID for " ++ name ++
    " must be " ++ toString expected

/-- Source `helpers::validate_id`: succeed when the decoded tag equals the type's
constant, fail with `invalidIdMsg` otherwise. -/
def validateId (expected : Nat) (id : Nat) (name : String) :
    Except String Unit :=
  if expected = id then .ok () else .error (invalidIdMsg name id expected)

/-- Source `helpers::deser_value_is_object`. -/
def deserValueIsObject (v : Value) (error : String) : Except String Unit :=
  if v.isObject then .ok () else .error error

/-- Source `helpers::ser_value_is_object`. -/
def serValueIsObject (v : Value) (error : String) : Except String Value :=
  if v.isObject then .ok v else .error error

/-- Source `helpers::ser_value_is_args`: array-shaped or null. -/
def serValueIsArgs (v : Value) (error : String) : Except String Value :=
  if v.isArray || v.isNull then .ok v else .error error

/-- Source `helpers::ser_value_is_kwargs`: map-shaped or null. -/
def serValueIsKwargs (v : Value) (error : String) : Except String Value :=
  if v.isObject || v.isNull then .ok v else .error error

/-- serde_json's end-of-sequence check after a `visit_seq`: any unconsumed
elements make the deserialization fail. -/
def endOfSeq : List Value → Except String Unit
  | [] => .ok ()
  | _ => .error "invalid length"

/-- Modelled from the spec: the six peer roles (the `roles` module is not
among the sources; §4.3 and the glossary list the client-side roles Caller,
Callee, Publisher, Subscriber and the router-side roles Dealer, Broker). -/
inductive Roles where
  | callee
  | caller
  | publisher
  | subscriber
  | dealer
  | broker
deriving DecidableEq, Repr

/-- Source `MessageDirection` (`src/messages/mod.rs`): whether the role may receive
or send the message. -/
structure MessageDirection where
  receives : Bool
  sends : Bool
deriving DecidableEq, Repr

/-- Source `Call` (`src/messages/call.rs`). -/
structure Call where
  request_id : Nat
  options : Value
  procedure : String
  args : Value
  kwargs : Value

/-- Source `Call::ID`. -/
def Call.ID : Nat := 48

/-- Source `Call::direction` (`src/messages/call.rs`). -/
def Call.direction : Roles → MessageDirection
  | .callee => { receives := false, sends := false }
  | .caller => { receives := false, sends := true }
  | .publisher => { receives := false, sends := false }
  | .subscriber => { receives := false, sends := false }
  | .dealer => { receives := false, sends := true }
  | .broker => { receives := false, sends := false }

/-- Source `impl Serialize for Call`. -/
def Call.serialize (m : Call) : Except String (List Value) := do
  let options ← serValueIsObject m.options "Options must be object like."
  let args ← serValueIsArgs m.args "Args must be Array like or Null."
  let kwargs ← serValueIsKwargs m.kwargs "Kwargs must be Object like or Null."
  if args.isNull then
    if kwargs.isNull then
      .ok [.num Call.ID, .num m.request_id, options, .str m.procedure]
    else
      .ok [.num Call.ID, .num m.request_id, options, .str m.procedure,
        .arr [], kwargs]
  else
    if kwargs.isNull then
      .ok [.num Call.ID, .num m.request_id, options, .str m.procedure, args]
    else
      .ok [.num Call.ID, .num m.request_id, options, .str m.procedure,
        args, kwargs]

/-- Source `impl Deserialize for Call` (`CallVisitor::visit_seq`, followed by
serde_json's end-of-sequence check). -/
def Call.deserialize (ws : List Value) : Except String Call := do
  let (message_id, s) ← deserSeqElement parseU64
    "Message ID must be present and type u8." ws
  validateId Call.ID message_id "Call"
  let (request_id, s) ← deserSeqElement parseU64
    "Request ID must be present and type u64." s
  let (options, s) ← deserSeqElement parseValue
    "Options must be present and object like." s
  deserValueIsObject options "Options must be object like."
  let (procedure, s) ← deserSeqElement parseString
    "Procedure must be present and object like." s
  let (args, s) ← deserArgsKwargsElement "Args must be array like or null." s
  let (kwargs, s) ← deserArgsKwargsElement
    "Kwargs must be object like or null." s
  endOfSeq s
  .ok { request_id, options, procedure, args, kwargs }

/-- Source `Abort` (`src/messages/abort.rs`). -/
structure Abort where
  details : Value
  reason : String

/-- Source `Abort::ID`. -/
def Abort.ID : Nat := 3

/-- Source `Abort::direction`. -/
def Abort.direction : Roles → MessageDirection
  | .callee => { receives := true, sends := false }
  | .caller => { receives := true, sends := false }
  | .publisher => { receives := true, sends := false }
  | .subscriber => { receives := true, sends := false }
  | .dealer => { receives := false, sends := true }
  | .broker => { receives := false, sends := true }

/-- Source `impl Serialize for Abort`. -/
def Abort.serialize (m : Abort) : Except String (List Value) := do
  let details ← serValueIsObject m.details "Details must be object like."
  .ok [.num Abort.ID, details, .str m.reason]

/-- Source `impl Deserialize for Abort` (`AbortVisitor::visit_seq`): the details
shape is validated only after the reason has been read. -/
def Abort.deserialize (ws : List Value) : Except String Abort := do
  let (message_id, s) ← deserSeqElement parseU64
    "Message ID must be type u8." ws
  validateId Abort.ID message_id "Abort"
  let (details, s) ← deserSeqElement parseValue
    "Details must be a JSON value." s
  let (reason, s) ← deserSeqElement parseString "Reason must be a String." s
  deserValueIsObject details "Details must be object like."
  endOfSeq s
  .ok { reason, details }

/-- Source `Authenticate` (`src/messages/authenticate.rs`). -/
structure Authenticate where
  signature : String
  details : Value

/-- Source `Authenticate::ID`. -/
def Authenticate.ID : Nat := 5

/-- Source `Authenticate::direction`. -/
def Authenticate.direction : Roles → MessageDirection
  | .callee => { receives := false, sends := true }
  | .caller => { receives := false, sends := true }
  | .publisher => { receives := false, sends := true }
  | .subscriber => { receives := false, sends := true }
  | .dealer => { receives := true, sends := false }
  | .broker => { receives := true, sends := false }

/-- Source `impl Serialize for Authenticate`. -/
def Authenticate.serialize (m : Authenticate) : Except String (List Value) := do
  let details ← serValueIsObject m.details "Details must be object like."
  .ok [.num Authenticate.ID, .str m.signature, details]

/-- Source `impl Deserialize for Authenticate`. -/
def Authenticate.deserialize (ws : List Value) : Except String Authenticate := do
  let (message_id, s) ← deserSeqElement parseU64
    "Message ID must be present and type u8." ws
  validateId Authenticate.ID message_id "Authenticate"
  let (signature, s) ← deserSeqElement parseString
    "Signature must be type String." s
  let (details, s) ← deserSeqElement parseValue
    "Details must be present and object like." s
  deserValueIsObject details "Value must be object like"
  endOfSeq s
  .ok { signature, details }

/-- Source `Cancel` (`src/messages/cancel.rs`). -/
structure Cancel where
  request_id : Nat
  options : Value

/-- Source `Cancel::ID`. -/
def Cancel.ID : Nat := 49

/-- Source `Cancel::direction`. -/
def Cancel.direction : Roles → MessageDirection
  | .callee => { receives := false, sends := false }
  | .caller => { receives := false, sends := true }
  | .publisher => { receives := false, sends := false }
  | .subscriber => { receives := false, sends := false }
  | .dealer => { receives := false, sends := true }
  | .broker => { receives := false, sends := false }

/-- Source `impl Serialize for Cancel`. -/
def Cancel.serialize (m : Cancel) : Except String (List Value) := do
  let options ← serValueIsObject m.options "Options must be object like."
  .ok [.num Cancel.ID, .num m.request_id, options]

/-- Source `impl Deserialize for Cancel`. -/
def Cancel.deserialize (ws : List Value) : Except String Cancel := do
  let (message_id, s) ← deserSeqElement parseU64
    "Message ID must be type u64." ws
  validateId Cancel.ID message_id "Cancel"
  let (request_id, s) ← deserSeqElement parseU64 "Request ID must be a u64." s
  let (options, s) ← deserSeqElement parseValue
    "Options must be a JSON value." s
  deserValueIsObject options "Options must be object like."
  endOfSeq s
  .ok { request_id, options }

/-- Source `Challenge` (`src/messages/challenge.rs`). -/
structure Challenge where
  authmethod : String
  details : Value

/-- Source `Challenge::ID`. -/
def Challenge.ID : Nat := 4

/-- Source `Challenge::direction`. -/
def Challenge.direction : Roles → MessageDirection
  | .callee => { receives := true, sends := false }
  | .caller => { receives := true, sends := false }
  | .publisher => { receives := true, sends := false }
  | .subscriber => { receives := true, sends := false }
  | .dealer => { receives := false, sends := true }
  | .broker => { receives := false, sends := true }

/-- Source `impl Serialize for Challenge`. -/
def Challenge.serialize (m : Challenge) : Except String (List Value) := do
  let details ← serValueIsObject m.details "Details must be object like."
  .ok [.num Challenge.ID, .str m.authmethod, details]

/-- Source `impl Deserialize for Challenge`. -/
def Challenge.deserialize (ws : List Value) : Except String Challenge := do
  let (message_id, s) ← deserSeqElement parseU64
    "Message ID must be present and type u8." ws
  validateId Challenge.ID message_id "Challenge"
  let (authmethod, s) ← deserSeqElement parseString
    "authmethod must be type String." s
  let (details, s) ← deserSeqElement parseValue
    "Details must be present and object like." s
  deserValueIsObject details "Value must be object like"
  endOfSeq s
  .ok { authmethod, details }

/-- Source `WampErrorEvent` (`src/messages/error.rs`): the request types an Error
frame may refer to, serialized as the referred type's tag (serde_repr). -/
inductive WampErrorEvent where
  | unsubscribe
  | subscribe
  | publish
  | register
  | unregister
  | invocation
  | cancel
  | call
deriving DecidableEq, Repr

/-- The `u64` representation of a `WampErrorEvent` (its `#[repr(u64)]`
discriminants are the referred message types' `ID` constants). -/
def WampErrorEvent.toId : WampErrorEvent → Nat
  | .unsubscribe => 34
  | .subscribe => 32
  | .publish => 16
  | .register => 64
  | .unregister => 66
  | .invocation => 68
  | .cancel => 49
  | .call => 48

/-- The inverse of `WampErrorEvent.toId` (serde_repr `Deserialize`). -/
def WampErrorEvent.ofId : Nat → Option WampErrorEvent
  | 34 => some .unsubscribe
  | 32 => some .subscribe
  | 16 => some .publish
  | 64 => some .register
  | 66 => some .unregister
  | 68 => some .invocation
  | 49 => some .cancel
  | 48 => some .call
  | _ => none

/-- Parse one wire element as a `WampErrorEvent` (serde_repr: a `u64` whose
value must be one of the enum's discriminants). -/
def parseErrorEvent (v : Value) : Except String WampErrorEvent :=
  match v.asU64 with
  | some n =>
    match WampErrorEvent.ofId n with
    | some e => .ok e
    | none => .error "invalid value for WampErrorEvent"
  | none => .error "invalid type: expected u64"

/-- Source `WampError` (`src/messages/error.rs`). -/
structure WampError where
  event : WampErrorEvent
  request_id : Nat
  details : Value
  error : String
  args : Value
  kwargs : Value

/-- Source `WampError::ID`. -/
def WampError.ID : Nat := 8

/-- Source `WampError::direction`. -/
def WampError.direction : Roles → MessageDirection
  | .callee => { receives := true, sends := true }
  | .caller => { receives := true, sends := false }
  | .publisher => { receives := true, sends := false }
  | .subscriber => { receives := true, sends := false }
  | .dealer => { receives := true, sends := true }
  | .broker => { receives := false, sends := true }

/-- Source `impl Serialize for WampError`. -/
def WampError.serialize (m : WampError) : Except String (List Value) := do
  let details ← serValueIsObject m.details "Details must be Object like."
  let args ← serValueIsArgs m.args "Args must be Array like or Null."
  let kwargs ← serValueIsKwargs m.kwargs "Kwargs must be Object like or Null."
  if args.isNull then
    if kwargs.isNull then
      .ok [.num WampError.ID, .num m.event.toId, .num m.request_id, details,
        .str m.error]
    else
      .ok [.num WampError.ID, .num m.event.toId, .num m.request_id, details,
        .str m.error, .arr [], kwargs]
  else
    if kwargs.isNull then
      .ok [.num WampError.ID, .num m.event.toId, .num m.request_id, details,
        .str m.error, args]
    else
      .ok [.num WampError.ID, .num m.event.toId, .num m.request_id, details,
        .str m.error, args, kwargs]

/-- Source `impl Deserialize for WampError` (`WampErrorVisitor::visit_seq`; the
source validates the details shape twice). -/
def WampError.deserialize (ws : List Value) : Except String WampError := do
  let (message_id, s) ← deserSeqElement parseU64
    "Message id must be present and type u64." ws
  validateId WampError.ID message_id "WampError"
  let (event, s) ← deserSeqElement parseErrorEvent
    "Message type of error must be present and type u64" s
  let (request_id, s) ← deserSeqElement parseU64
    "Request ID must be present and type u64" s
  let (details, s) ← deserSeqElement parseValue
    "Details must be present and object like" s
  deserValueIsObject details "Details must be object like."
  let (error, s) ← deserSeqElement parseString
    "Error URI must be present and type String" s
  deserValueIsObject details "Details must be object like."
  let (args, s) ← deserArgsKwargsElement "Args must be array like or null." s
  let (kwargs, s) ← deserArgsKwargsElement
    "Kwargs must be object like or null." s
  endOfSeq s
  .ok { event, request_id, details, error, args, kwargs }

/-- Source `Event` (`src/messages/event.rs`). -/
structure Event where
  subscription : Nat
  publication : Nat
  details : Value
  args : Value
  kwargs : Value

/-- Source `Event::ID`. -/
def Event.ID : Nat := 36

/-- Source `Event::direction`. -/
def Event.direction : Roles → MessageDirection
  | .callee => { receives := false, sends := false }
  | .caller => { receives := false, sends := false }
  | .publisher => { receives := false, sends := false }
  | .subscriber => { receives := true, sends := false }
  | .dealer => { receives := false, sends := false }
  | .broker => { receives := false, sends := true }

/-- Source `impl Serialize for Event`: only args and kwargs are shape-checked; the
details field is emitted unvalidated.  (The source also contains an empty
`if` statement with no effect, which has no counterpart here.) -/
def Event.serialize (m : Event) : Except String (List Value) := do
  let args ← serValueIsArgs m.args "Args must be Array like or Null."
  let kwargs ← serValueIsKwargs m.kwargs "Kwargs must be Object like or Null."
  if args.isNull then
    if kwargs.isNull then
      .ok [.num Event.ID, .num m.subscription, .num m.publication, m.details]
    else
      .ok [.num Event.ID, .num m.subscription, .num m.publication, m.details,
        .arr [], kwargs]
  else
    if kwargs.isNull then
      .ok [.num Event.ID, .num m.subscription, .num m.publication, m.details,
        args]
    else
      .ok [.num Event.ID, .num m.subscription, .num m.publication, m.details,
        args, kwargs]

/-- Source `impl Deserialize for Event`. -/
def Event.deserialize (ws : List Value) : Except String Event := do
  let (message_id, s) ← deserSeqElement parseU64
    "Message ID must be present and type u8." ws
  validateId Event.ID message_id "Event"
  let (subscription, s) ← deserSeqElement parseU64
    "Subscription must be present and type u64." s
  let (publication, s) ← deserSeqElement parseU64
    "Publication must be present and object like." s
  let (details, s) ← deserSeqElement parseValue
    "Details must be present and object like." s
  deserValueIsObject details "Details must be object like."
  let (args, s) ← deserArgsKwargsElement "Args must be array like or null." s
  let (kwargs, s) ← deserArgsKwargsElement
    "Kwargs must be object like or null." s
  endOfSeq s
  .ok { subscription, publication, details, args, kwargs }

/-- Source `Goodbye` (`src/messages/goodbye.rs`). -/
structure Goodbye where
  details : Value
  reason : String

/-- Source `Goodbye::ID`. -/
def Goodbye.ID : Nat := 6

/-- Source `Goodbye::direction`. -/
def Goodbye.direction : Roles → MessageDirection
  | .callee => { receives := true, sends := true }
  | .caller => { receives := true, sends := true }
  | .publisher => { receives := true, sends := true }
  | .subscriber => { receives := true, sends := false }
  | .dealer => { receives := true, sends := true }
  | .broker => { receives := true, sends := true }

/-- Source `impl Serialize for Goodbye`. -/
def Goodbye.serialize (m : Goodbye) : Except String (List Value) := do
  let details ← serValueIsObject m.details "Details must be object like."
  .ok [.num Goodbye.ID, details, .str m.reason]

/-- Source `impl Deserialize for Goodbye`: like `Abort`, the details shape is
validated only after the reason has been read. -/
def Goodbye.deserialize (ws : List Value) : Except String Goodbye := do
  let (message_id, s) ← deserSeqElement parseU64
    "Message ID must be type u8." ws
  validateId Goodbye.ID message_id "Goodbye"
  let (details, s) ← deserSeqElement parseValue
    "Details must be a JSON value." s
  let (reason, s) ← deserSeqElement parseString "Reason must be a String." s
  deserValueIsObject details "Details must be object like."
  endOfSeq s
  .ok { reason, details }

/-- Source `Hello` (`src/messages/hello.rs`). -/
structure Hello where
  realm : String
  details : Value

/-- Source `Hello::ID`. -/
def Hello.ID : Nat := 1

/-- Source `Hello::direction`. -/
def Hello.direction : Roles → MessageDirection
  | .callee => { receives := false, sends := true }
  | .caller => { receives := false, sends := true }
  | .publisher => { receives := false, sends := true }
  | .subscriber => { receives := false, sends := true }
  | .dealer => { receives := true, sends := false }
  | .broker => { receives := true, sends := false }

/-- Source `impl Serialize for Hello`. -/
def Hello.serialize (m : Hello) : Except String (List Value) := do
  let details ← serValueIsObject m.details "Details must be object like."
  .ok [.num Hello.ID, .str m.realm, details]

/-- Source `impl Deserialize for Hello`. -/
def Hello.deserialize (ws : List Value) : Except String Hello := do
  let (message_id, s) ← deserSeqElement parseU64
    "Message ID must be type u8." ws
  validateId Hello.ID message_id "Hello"
  let (realm, s) ← deserSeqElement parseString "realm must be a String." s
  let (details, s) ← deserSeqElement parseValue
    "Details must be a JSON value." s
  deserValueIsObject details "Details must be object like."
  endOfSeq s
  .ok { realm, details }

/-- Source `Interrupt` (`src/messages/interrupt.rs`). -/
structure Interrupt where
  request_id : Nat
  options : Value

/-- Source `Interrupt::ID`. -/
def Interrupt.ID : Nat := 69

/-- Source `Interrupt::direction`. -/
def Interrupt.direction : Roles → MessageDirection
  | .callee => { receives := true, sends := false }
  | .caller => { receives := false, sends := false }
  | .publisher => { receives := false, sends := false }
  | .subscriber => { receives := false, sends := false }
  | .dealer => { receives := false, sends := true }
  | .broker => { receives := false, sends := false }

/-- Source `impl Serialize for Interrupt`. -/
def Interrupt.serialize (m : Interrupt) : Except String (List Value) := do
  let options ← serValueIsObject m.options "Options must be object like."
  .ok [.num Interrupt.ID, .num m.request_id, options]

/-- Source `impl Deserialize for Interrupt`. -/
def Interrupt.deserialize (ws : List Value) : Except String Interrupt := do
  let (message_id, s) ← deserSeqElement parseU64
    "Message ID must be type u64." ws
  validateId Interrupt.ID message_id "Interrupt"
  let (request_id, s) ← deserSeqElement parseU64 "Request ID must be a u64." s
  let (options, s) ← deserSeqElement parseValue
    "Options must be a JSON value." s
  deserValueIsObject options "Options must be object like."
  endOfSeq s
  .ok { request_id, options }

/-- Source `Invocation` (`src/messages/invocation.rs`). -/
structure Invocation where
  request_id : Nat
  registration : Nat
  details : Value
  args : Value
  kwargs : Value

/-- Source `Invocation::ID`. -/
def Invocation.ID : Nat := 68

/-- Source `Invocation::direction`. -/
def Invocation.direction : Roles → MessageDirection
  | .callee => { receives := true, sends := false }
  | .caller => { receives := false, sends := false }
  | .publisher => { receives := false, sends := false }
  | .subscriber => { receives := false, sends := false }
  | .dealer => { receives := false, sends := true }
  | .broker => { receives := false, sends := false }

/-- Source `impl Serialize for Invocation`: only args and kwargs are shape-checked;
the details field is emitted unvalidated. -/
def Invocation.serialize (m : Invocation) : Except String (List Value) := do
  let args ← serValueIsArgs m.args "Args must be Array like or Null."
  let kwargs ← serValueIsKwargs m.kwargs "Kwargs must be Object like or Null."
  if args.isNull then
    if kwargs.isNull then
      .ok [.num Invocation.ID, .num m.request_id, .num m.registration,
        m.details]
    else
      .ok [.num Invocation.ID, .num m.request_id, .num m.registration,
        m.details, .arr [], kwargs]
  else
    if kwargs.isNull then
      .ok [.num Invocation.ID, .num m.request_id, .num m.registration,
        m.details, args]
    else
      .ok [.num Invocation.ID, .num m.request_id, .num m.registration,
        m.details, args, kwargs]

/-- Source `impl Deserialize for Invocation`. -/
def Invocation.deserialize (ws : List Value) : Except String Invocation := do
  let (message_id, s) ← deserSeqElement parseU64
    "Message ID must be present and type u8." ws
  validateId Invocation.ID message_id "Invocation"
  let (request_id, s) ← deserSeqElement parseU64
    "request_id must be present and type u64." s
  let (registration, s) ← deserSeqElement parseU64
    "registration must be present and object like." s
  let (details, s) ← deserSeqElement parseValue
    "Details must be present and object like." s
  deserValueIsObject details "Details must be object like."
  let (args, s) ← deserArgsKwargsElement "Args must be array like or null." s
  let (kwargs, s) ← deserArgsKwargsElement
    "Kwargs must be object like or null." s
  endOfSeq s
  .ok { request_id, registration, details, args, kwargs }

/-- Source `Publish` (`src/messages/publish.rs`). -/
structure Publish where
  request_id : Nat
  options : Value
  topic : String
  args : Value
  kwargs : Value

/-- Source `Publish::ID`. -/
def Publish.ID : Nat := 16

/-- Source `Publish::direction`. -/
def Publish.direction : Roles → MessageDirection
  | .caller => { receives := false, sends := true }
  | .callee => { receives := false, sends := false }
  | .publisher => { receives := false, sends := true }
  | .subscriber => { receives := false, sends := false }
  | .dealer => { receives := false, sends := false }
  | .broker => { receives := true, sends := false }

/-- Source `impl Serialize for Publish`. -/
def Publish.serialize (m : Publish) : Except String (List Value) := do
  let options ← serValueIsObject m.options "Options must be object like."
  let args ← serValueIsArgs m.args "Args must be Array like or Null."
  let kwargs ← serValueIsKwargs m.kwargs "Kwargs must be Object like or Null."
  if args.isNull then
    if kwargs.isNull then
      .ok [.num Publish.ID, .num m.request_id, options, .str m.topic]
    else
      .ok [.num Publish.ID, .num m.request_id, options, .str m.topic,
        .arr [], kwargs]
  else
    if kwargs.isNull then
      .ok [.num Publish.ID, .num m.request_id, options, .str m.topic, args]
    else
      .ok [.num Publish.ID, .num m.request_id, options, .str m.topic,
        args, kwargs]

/-- Source `impl Deserialize for Publish`. -/
def Publish.deserialize (ws : List Value) : Except String Publish := do
  let (message_id, s) ← deserSeqElement parseU64
    "Message ID must be present and type u8." ws
  validateId Publish.ID message_id "Publish"
  let (request_id, s) ← deserSeqElement parseU64
    "Request ID must be present and type u64." s
  let (options, s) ← deserSeqElement parseValue
    "Options must be present and object like." s
  deserValueIsObject options "Options must be object like."
  let (topic, s) ← deserSeqElement parseString
    "topic must be present and object like." s
  let (args, s) ← deserArgsKwargsElement "Args must be array like or null." s
  let (kwargs, s) ← deserArgsKwargsElement
    "Kwargs must be object like or null." s
  endOfSeq s
  .ok { request_id, options, topic, args, kwargs }

/-- Source `Published` (`src/messages/published.rs`). -/
structure Published where
  request_id : Nat
  publication : Nat

/-- Source `Published::ID`. -/
def Published.ID : Nat := 17

/-- Source `Published::direction`. -/
def Published.direction : Roles → MessageDirection
  | .callee => { receives := true, sends := false }
  | .caller => { receives := false, sends := false }
  | .publisher => { receives := true, sends := false }
  | .subscriber => { receives := false, sends := false }
  | .dealer => { receives := false, sends := false }
  | .broker => { receives := false, sends := true }

/-- Source `impl Serialize for Published`. -/
def Published.serialize (m : Published) : Except String (List Value) :=
  .ok [.num Published.ID, .num m.request_id, .num m.publication]

/-- Source `impl Deserialize for Published`. -/
def Published.deserialize (ws : List Value) : Except String Published := do
  let (message_id, s) ← deserSeqElement parseU64
    "Message ID must be present and type u8." ws
  validateId Published.ID message_id "Published"
  let (request_id, s) ← deserSeqElement parseU64
    "request_id must be present and type u64." s
  let (publication, s) ← deserSeqElement parseU64
    "publication must be present and object like." s
  endOfSeq s
  .ok { request_id, publication }

/-- Source `Register` (`src/messages/register.rs`). -/
structure Register where
  request_id : Nat
  options : Value
  procedure : String

/-- Source `Register::ID`. -/
def Register.ID : Nat := 64

/-- Source `Register::direction`. -/
def Register.direction : Roles → MessageDirection
  | .callee => { receives := false, sends := true }
  | .caller => { receives := false, sends := false }
  | .publisher => { receives := false, sends := false }
  | .subscriber => { receives := false, sends := false }
  | .dealer => { receives := true, sends := false }
  | .broker => { receives := false, sends := false }

/-- Source `impl Serialize for Register`: no shape check is performed. -/
def Register.serialize (m : Register) : Except String (List Value) :=
  .ok [.num Register.ID, .num m.request_id, m.options, .str m.procedure]

/-- Source `impl Deserialize for Register` (the source validates the options shape
twice). -/
def Register.deserialize (ws : List Value) : Except String Register := do
  let (message_id, s) ← deserSeqElement parseU64
    "Message id must be present and type u64." ws
  validateId Register.ID message_id "Register"
  let (request_id, s) ← deserSeqElement parseU64
    "Request ID must be present and type u64" s
  let (options, s) ← deserSeqElement parseValue
    "options must be present and object like" s
  deserValueIsObject options "options must be object like."
  let (procedure, s) ← deserSeqElement parseString
    "procedure URI must be present and type String" s
  deserValueIsObject options "options must be object like."
  endOfSeq s
  .ok { request_id, options, procedure }

/-- Source `Registered` (`src/messages/registered.rs`). -/
structure Registered where
  request_id : Nat
  registration : Nat

/-- Source `Registered::ID`. -/
def Registered.ID : Nat := 65

/-- Source `Registered::direction`. -/
def Registered.direction : Roles → MessageDirection
  | .callee => { receives := true, sends := false }
  | .caller => { receives := false, sends := false }
  | .publisher => { receives := false, sends := false }
  | .subscriber => { receives := false, sends := false }
  | .dealer => { receives := false, sends := true }
  | .broker => { receives := false, sends := false }

/-- Source `impl Serialize for Registered`. -/
def Registered.serialize (m : Registered) : Except String (List Value) :=
  .ok [.num Registered.ID, .num m.request_id, .num m.registration]

/-- Source `impl Deserialize for Registered`. -/
def Registered.deserialize (ws : List Value) : Except String Registered := do
  let (message_id, s) ← deserSeqElement parseU64
    "Message ID must be present and type u8." ws
  validateId Registered.ID message_id "Registered"
  let (request_id, s) ← deserSeqElement parseU64
    "request_id must be present and type u64." s
  let (registration, s) ← deserSeqElement parseU64
    "registration must be present and object like." s
  endOfSeq s
  .ok { request_id, registration }

/-- Source `WampResult` (`src/messages/result.rs`). -/
structure WampResult where
  request_id : Nat
  details : Value
  args : Value
  kwargs : Value

/-- Source `WampResult::ID`. -/
def WampResult.ID : Nat := 50

/-- Source `WampResult::direction`. -/
def WampResult.direction : Roles → MessageDirection
  | .callee => { receives := false, sends := false }
  | .caller => { receives := true, sends := false }
  | .publisher => { receives := false, sends := false }
  | .subscriber => { receives := false, sends := false }
  | .dealer => { receives := false, sends := false }
  | .broker => { receives := false, sends := true }

/-- Source `impl Serialize for WampResult`. -/
def WampResult.serialize (m : WampResult) : Except String (List Value) := do
  let details ← serValueIsObject m.details "details must be object like."
  let args ← serValueIsArgs m.args "Args must be Array like or Null."
  let kwargs ← serValueIsKwargs m.kwargs "Kwargs must be Object like or Null."
  if args.isNull then
    if kwargs.isNull then
      .ok [.num WampResult.ID, .num m.request_id, details]
    else
      .ok [.num WampResult.ID, .num m.request_id, details, .arr [], kwargs]
  else
    if kwargs.isNull then
      .ok [.num WampResult.ID, .num m.request_id, details, args]
    else
      .ok [.num WampResult.ID, .num m.request_id, details, args, kwargs]

/-- Source `impl Deserialize for WampResult`. -/
def WampResult.deserialize (ws : List Value) : Except String WampResult := do
  let (message_id, s) ← deserSeqElement parseU64
    "Message ID must be present and type u8." ws
  validateId WampResult.ID message_id "WampResult"
  let (request_id, s) ← deserSeqElement parseU64
    "Request ID must be present and type u64." s
  let (details, s) ← deserSeqElement parseValue
    "details must be present and object like." s
  deserValueIsObject details "details must be object like."
  let (args, s) ← deserArgsKwargsElement "Args must be array like or null." s
  let (kwargs, s) ← deserArgsKwargsElement
    "Kwargs must be object like or null." s
  endOfSeq s
  .ok { request_id, details, args, kwargs }

/-- Source `Subscribe` (`src/messages/subscribe.rs`). -/
structure Subscribe where
  request_id : Nat
  options : Value
  topic : String

/-- Source `Subscribe::ID`. -/
def Subscribe.ID : Nat := 32

/-- Source `Subscribe::direction`. -/
def Subscribe.direction : Roles → MessageDirection
  | .callee => { receives := false, sends := false }
  | .caller => { receives := false, sends := false }
  | .publisher => { receives := false, sends := false }
  | .subscriber => { receives := false, sends := true }
  | .dealer => { receives := false, sends := false }
  | .broker => { receives := true, sends := false }

/-- Source `impl Serialize for Subscribe`: no shape check is performed. -/
def Subscribe.serialize (m : Subscribe) : Except String (List Value) :=
  .ok [.num Subscribe.ID, .num m.request_id, m.options, .str m.topic]

/-- Source `impl Deserialize for Subscribe` (the source validates the options shape
twice). -/
def Subscribe.deserialize (ws : List Value) : Except String Subscribe := do
  let (message_id, s) ← deserSeqElement parseU64
    "Message id must be present and type u64." ws
  validateId Subscribe.ID message_id "Subscribe"
  let (request_id, s) ← deserSeqElement parseU64
    "Request ID must be present and type u64" s
  let (options, s) ← deserSeqElement parseValue
    "options must be present and object like" s
  deserValueIsObject options "options must be object like."
  let (topic, s) ← deserSeqElement parseString
    "topic URI must be present and type String" s
  deserValueIsObject options "options must be object like."
  endOfSeq s
  .ok { request_id, options, topic }

/-- Source `Subscribed` (`src/messages/subscribed.rs`). -/
structure Subscribed where
  request_id : Nat
  subscription : Nat

/-- Source `Subscribed::ID`. -/
def Subscribed.ID : Nat := 33

/-- Source `Subscribed::direction`. -/
def Subscribed.direction : Roles → MessageDirection
  | .callee => { receives := false, sends := false }
  | .caller => { receives := false, sends := false }
  | .publisher => { receives := false, sends := false }
  | .subscriber => { receives := true, sends := false }
  | .dealer => { receives := false, sends := false }
  | .broker => { receives := false, sends := true }

/-- Source `impl Serialize for Subscribed`. -/
def Subscribed.serialize (m : Subscribed) : Except String (List Value) :=
  .ok [.num Subscribed.ID, .num m.request_id, .num m.subscription]

/-- Source `impl Deserialize for Subscribed`. -/
def Subscribed.deserialize (ws : List Value) : Except String Subscribed := do
  let (message_id, s) ← deserSeqElement parseU64
    "Message ID must be present and type u8." ws
  validateId Subscribed.ID message_id "Subscribed"
  let (request_id, s) ← deserSeqElement parseU64
    "request_id must be present and type u64." s
  let (subscription, s) ← deserSeqElement parseU64
    "subscription must be present and object like." s
  endOfSeq s
  .ok { request_id, subscription }

/-- Source `Unregister` (`src/messages/unregister.rs`). -/
structure Unregister where
  request_id : Nat
  registration : Nat

/-- Source `Unregister::ID`. -/
def Unregister.ID : Nat := 66

/-- Source `Unregister::direction`. -/
def Unregister.direction : Roles → MessageDirection
  | .callee => { receives := false, sends := true }
  | .caller => { receives := false, sends := false }
  | .publisher => { receives := false, sends := false }
  | .subscriber => { receives := false, sends := false }
  | .dealer => { receives := true, sends := false }
  | .broker => { receives := false, sends := false }

/-- Source `impl Serialize for Unregister`. -/
def Unregister.serialize (m : Unregister) : Except String (List Value) :=
  .ok [.num Unregister.ID, .num m.request_id, .num m.registration]

/-- Source `impl Deserialize for Unregister`. -/
def Unregister.deserialize (ws : List Value) : Except String Unregister := do
  let (message_id, s) ← deserSeqElement parseU64
    "Message ID must be present and type u8." ws
  validateId Unregister.ID message_id "Unregister"
  let (request_id, s) ← deserSeqElement parseU64
    "request_id must be present and type u64." s
  let (registration, s) ← deserSeqElement parseU64
    "registration must be present and object like." s
  endOfSeq s
  .ok { request_id, registration }

/-- Source `Unregistered` (`src/messages/unregistered.rs`). -/
structure Unregistered where
  request_id : Nat

/-- Source `Unregistered::ID`. -/
def Unregistered.ID : Nat := 67

/-- Source `Unregistered::direction`. -/
def Unregistered.direction : Roles → MessageDirection
  | .callee => { receives := true, sends := false }
  | .caller => { receives := false, sends := false }
  | .publisher => { receives := false, sends := false }
  | .subscriber => { receives := false, sends := false }
  | .dealer => { receives := false, sends := true }
  | .broker => { receives := false, sends := false }

/-- Source `impl Serialize for Unregistered`. -/
def Unregistered.serialize (m : Unregistered) : Except String (List Value) :=
  .ok [.num Unregistered.ID, .num m.request_id]

/-- Source `impl Deserialize for Unregistered`. -/
def Unregistered.deserialize (ws : List Value) :
    Except String Unregistered := do
  let (message_id, s) ← deserSeqElement parseU64
    "Message ID must be present and type u8." ws
  validateId Unregistered.ID message_id "Unregistered"
  let (request_id, s) ← deserSeqElement parseU64
    "request_id must be present and type u64." s
  endOfSeq s
  .ok { request_id }

/-- Source `Unsubscribe` (`src/messages/unsubscribe.rs`). -/
structure Unsubscribe where
  request_id : Nat
  subscription : Nat

/-- Source `Unsubscribe::ID`. -/
def Unsubscribe.ID : Nat := 34

/-- Source `Unsubscribe::direction`. -/
def Unsubscribe.direction : Roles → MessageDirection
  | .callee => { receives := false, sends := false }
  | .caller => { receives := false, sends := false }
  | .publisher => { receives := false, sends := false }
  | .subscriber => { receives := false, sends := true }
  | .dealer => { receives := false, sends := false }
  | .broker => { receives := true, sends := false }

/-- Source `impl Serialize for Unsubscribe`. -/
def Unsubscribe.serialize (m : Unsubscribe) : Except String (List Value) :=
  .ok [.num Unsubscribe.ID, .num m.request_id, .num m.subscription]

/-- Source `impl Deserialize for Unsubscribe`. -/
def Unsubscribe.deserialize (ws : List Value) : Except String Unsubscribe := do
  let (message_id, s) ← deserSeqElement parseU64
    "Message ID must be present and type u8." ws
  validateId Unsubscribe.ID message_id "Unsubscribe"
  let (request_id, s) ← deserSeqElement parseU64
    "request_id must be present and type u64." s
  let (subscription, s) ← deserSeqElement parseU64
    "subscription must be present and object like." s
  endOfSeq s
  .ok { request_id, subscription }

/-- Source `Unsubscribed` (`src/messages/unsubscribed.rs`). -/
structure Unsubscribed where
  request_id : Nat

/-- Source `Unsubscribed::ID`. -/
def Unsubscribed.ID : Nat := 35

/-- Source `Unsubscribed::direction`. -/
def Unsubscribed.direction : Roles → MessageDirection
  | .callee => { receives := false, sends := false }
  | .caller => { receives := false, sends := false }
  | .publisher => { receives := false, sends := false }
  | .subscriber => { receives := true, sends := false }
  | .dealer => { receives := false, sends := false }
  | .broker => { receives := false, sends := true }

/-- Source `impl Serialize for Unsubscribed`. -/
def Unsubscribed.serialize (m : Unsubscribed) : Except String (List Value) :=
  .ok [.num Unsubscribed.ID, .num m.request_id]

/-- Source `impl Deserialize for Unsubscribed`. -/
def Unsubscribed.deserialize (ws : List Value) :
    Except String Unsubscribed := do
  let (message_id, s) ← deserSeqElement parseU64
    "Message ID must be present and type u8." ws
  validateId Unsubscribed.ID message_id "Unsubscribed"
  let (request_id, s) ← deserSeqElement parseU64
    "request_id must be present and type u64." s
  endOfSeq s
  .ok { request_id }

/-- Source `Welcome` (`src/messages/welcome.rs`). -/
structure Welcome where
  session : Nat
  details : Value

/-- Source `Welcome::ID`. -/
def Welcome.ID : Nat := 2

/-- Source `Welcome::direction`. -/
def Welcome.direction : Roles → MessageDirection
  | .callee => { receives := true, sends := false }
  | .caller => { receives := true, sends := false }
  | .publisher => { receives := true, sends := false }
  | .subscriber => { receives := true, sends := false }
  | .dealer => { receives := false, sends := true }
  | .broker => { receives := false, sends := true }

/-- Source `impl Serialize for Welcome`. -/
def Welcome.serialize (m : Welcome) : Except String (List Value) := do
  let details ← serValueIsObject m.details "details must be object like."
  .ok [.num Welcome.ID, .num m.session, details]

/-- Source `impl Deserialize for Welcome`. -/
def Welcome.deserialize (ws : List Value) : Except String Welcome := do
  let (message_id, s) ← deserSeqElement parseU64
    "Message ID must be type u64." ws
  validateId Welcome.ID message_id "Welcome"
  let (session, s) ← deserSeqElement parseU64 "Request ID must be a u64." s
  let (details, s) ← deserSeqElement parseValue
    "details must be a JSON value." s
  deserValueIsObject details "details must be object like."
  endOfSeq s
  .ok { session, details }

/-- Source `Yield` (`src/messages/yield.rs`). -/
structure Yield where
  request_id : Nat
  options : Value
  args : Value
  kwargs : Value

/-- Source `Yield::ID`. -/
def Yield.ID : Nat := 70

/-- Source `Yield::direction`. -/
def Yield.direction : Roles → MessageDirection
  | .callee => { receives := false, sends := true }
  | .caller => { receives := false, sends := false }
  | .publisher => { receives := false, sends := false }
  | .subscriber => { receives := false, sends := false }
  | .dealer => { receives := true, sends := false }
  | .broker => { receives := false, sends := false }

/-- Source `impl Serialize for Yield`. -/
def Yield.serialize (m : Yield) : Except String (List Value) := do
  let options ← serValueIsObject m.options "options must be object like."
  let args ← serValueIsArgs m.args "Args must be Array like or Null."
  let kwargs ← serValueIsKwargs m.kwargs "Kwargs must be Object like or Null."
  if args.isNull then
    if kwargs.isNull then
      .ok [.num Yield.ID, .num m.request_id, options]
    else
      .ok [.num Yield.ID, .num m.request_id, options, .arr [], kwargs]
  else
    if kwargs.isNull then
      .ok [.num Yield.ID, .num m.request_id, options, args]
    else
      .ok [.num Yield.ID, .num m.request_id, options, args, kwargs]

/-- Source `impl Deserialize for Yield`. -/
def Yield.deserialize (ws : List Value) : Except String Yield := do
  let (message_id, s) ← deserSeqElement parseU64
    "Message ID must be present and type u8." ws
  validateId Yield.ID message_id "Yield"
  let (request_id, s) ← deserSeqElement parseU64
    "Request ID must be present and type u64." s
  let (options, s) ← deserSeqElement parseValue
    "options must be present and object like." s
  deserValueIsObject options "options must be object like."
  let (args, s) ← deserArgsKwargsElement "Args must be array like or null." s
  let (kwargs, s) ← deserArgsKwargsElement
    "Kwargs must be object like or null." s
  endOfSeq s
  .ok { request_id, options, args, kwargs }

/-- The `Messages` enum (`src/messages/mod.rs`): every known WAMP message
plus the `Extension` fallback holding a raw element sequence. -/
inductive Messages where
  | Abort (m : Abort)
  | Authenticate (m : Authenticate)
  | Call (m : Call)
  | Cancel (m : Cancel)
  | Challenge (m : Challenge)
  | Error (m : WampError)
  | Event (m : Event)
  | Goodbye (m : Goodbye)
  | Hello (m : Hello)
  | Interrupt (m : Interrupt)
  | Invocation (m : Invocation)
  | Publish (m : Publish)
  | Published (m : Published)
  | Register (m : Register)
  | Registered (m : Registered)
  | Result (m : WampResult)
  | Subscribe (m : Subscribe)
  | Subscribed (m : Subscribed)
  | Unregister (m : Unregister)
  | Unregistered (m : Unregistered)
  | Unsubscribe (m : Unsubscribe)
  | Unsubscribed (m : Unsubscribed)
  | Welcome (m : Welcome)
  | Yield (m : Yield)
  | Extension (values : List Value)

/-- Source `Messages::id` (`src/messages/mod.rs`): the tag constant of the variant.
The source's `Challenge` arm reads `Some(Authenticate::ID)`, not
`Some(Challenge::ID)`; this embedding reproduces that line as written. -/
def Messages.id : Messages → Option Nat
  | .Authenticate _ => some Authenticate.ID
  | .Abort _ => some Abort.ID
  | .Call _ => some Call.ID
  | .Cancel _ => some Cancel.ID
  | .Challenge _ => some Authenticate.ID
  | .Error _ => some WampError.ID
  | .Event _ => some Event.ID
  | .Goodbye _ => some Goodbye.ID
  | .Hello _ => some Hello.ID
  | .Interrupt _ => some Interrupt.ID
  | .Invocation _ => some Invocation.ID
  | .Publish _ => some Publish.ID
  | .Published _ => some Published.ID
  | .Register _ => some Register.ID
  | .Registered _ => some Registered.ID
  | .Result _ => some WampResult.ID
  | .Subscribe _ => some Subscribe.ID
  | .Subscribed _ => some Subscribed.ID
  | .Unregister _ => some Unregister.ID
  | .Unregistered _ => some Unregistered.ID
  | .Unsubscribe _ => some Unsubscribe.ID
  | .Unsubscribed _ => some Unsubscribed.ID
  | .Welcome _ => some Welcome.ID
  | .Yield _ => some Yield.ID
  | .Extension values =>
    match values.head? with
    | some value => value.asU64
    | none => none

/-- Source `impl Deserialize for Messages` (`src/messages/mod.rs`): read the leading
tag, dispatch on the 24 known constants, and fall back to `Extension` with
the entire original sequence for any other tag. -/
def Messages.deserialize (wamp_components : List Value) :
    Except String Messages := do
  let wamp_message_id ←
    match wamp_components.head? with
    | some v =>
      match v.asU64 with
      | some v => Except.ok v
      | none => Except.error ""
    | none => Except.error "value"
  if wamp_message_id = Abort.ID then
    Messages.Abort <$> Abort.deserialize wamp_components
  else if wamp_message_id = Authenticate.ID then
    Messages.Authenticate <$> Authenticate.deserialize wamp_components
  else if wamp_message_id = Call.ID then
    Messages.Call <$> Call.deserialize wamp_components
  else if wamp_message_id = Cancel.ID then
    Messages.Cancel <$> Cancel.deserialize wamp_components
  else if wamp_message_id = Challenge.ID then
    Messages.Challenge <$> Challenge.deserialize wamp_components
  else if wamp_message_id = WampError.ID then
    Messages.Error <$> WampError.deserialize wamp_components
  else if wamp_message_id = Event.ID then
    Messages.Event <$> Event.deserialize wamp_components
  else if wamp_message_id = Goodbye.ID then
    Messages.Goodbye <$> Goodbye.deserialize wamp_components
  else if wamp_message_id = Hello.ID then
    Messages.Hello <$> Hello.deserialize wamp_components
  else if wamp_message_id = Interrupt.ID then
    Messages.Interrupt <$> Interrupt.deserialize wamp_components
  else if wamp_message_id = Invocation.ID then
    Messages.Invocation <$> Invocation.deserialize wamp_components
  else if wamp_message_id = Publish.ID then
    Messages.Publish <$> Publish.deserialize wamp_components
  else if wamp_message_id = Published.ID then
    Messages.Published <$> Published.deserialize wamp_components
  else if wamp_message_id = Register.ID then
    Messages.Register <$> Register.deserialize wamp_components
  else if wamp_message_id = Registered.ID then
    Messages.Registered <$> Registered.deserialize wamp_components
  else if wamp_message_id = WampResult.ID then
    Messages.Result <$> WampResult.deserialize wamp_components
  else if wamp_message_id = Subscribe.ID then
    Messages.Subscribe <$> Subscribe.deserialize wamp_components
  else if wamp_message_id = Subscribed.ID then
    Messages.Subscribed <$> Subscribed.deserialize wamp_components
  else if wamp_message_id = Unregister.ID then
    Messages.Unregister <$> Unregister.deserialize wamp_components
  else if wamp_message_id = Unregistered.ID then
    Messages.Unregistered <$> Unregistered.deserialize wamp_components
  else if wamp_message_id = Unsubscribe.ID then
    Messages.Unsubscribe <$> Unsubscribe.deserialize wamp_components
  else if wamp_message_id = Unsubscribed.ID then
    Messages.Unsubscribed <$> Unsubscribed.deserialize wamp_components
  else if wamp_message_id = Welcome.ID then
    Messages.Welcome <$> Welcome.deserialize wamp_components
  else if wamp_message_id = Yield.ID then
    Messages.Yield <$> Yield.deserialize wamp_components
  else
    .ok (.Extension wamp_components)

/-- The 24 known message types, for stating properties uniformly over the
dispatcher's dispatch table. -/
inductive Kind where
  | abort
  | authenticate
  | call
  | cancel
  | challenge
  | error
  | event
  | goodbye
  | hello
  | interrupt
  | invocation
  | publish
  | published
  | register
  | registered
  | result
  | subscribe
  | subscribed
  | unregister
  | unregistered
  | unsubscribe
  | unsubscribed
  | welcome
  | yield'
deriving DecidableEq, Repr

/-- The wire-tag constant of each known message type. -/
def Kind.tagId : Kind → Nat
  | .abort => Abort.ID
  | .authenticate => Authenticate.ID
  | .call => Call.ID
  | .cancel => Cancel.ID
  | .challenge => Challenge.ID
  | .error => WampError.ID
  | .event => Event.ID
  | .goodbye => Goodbye.ID
  | .hello => Hello.ID
  | .interrupt => Interrupt.ID
  | .invocation => Invocation.ID
  | .publish => Publish.ID
  | .published => Published.ID
  | .register => Register.ID
  | .registered => Registered.ID
  | .result => WampResult.ID
  | .subscribe => Subscribe.ID
  | .subscribed => Subscribed.ID
  | .unregister => Unregister.ID
  | .unregistered => Unregistered.ID
  | .unsubscribe => Unsubscribe.ID
  | .unsubscribed => Unsubscribed.ID
  | .welcome => Welcome.ID
  | .yield' => Yield.ID

/-- The name each known type passes to `helpers::validate_id`. -/
def Kind.tagName : Kind → String
  | .abort => "Abort"
  | .authenticate => "Authenticate"
  | .call => "Call"
  | .cancel => "Cancel"
  | .challenge => "Challenge"
  | .error => "WampError"
  | .event => "Event"
  | .goodbye => "Goodbye"
  | .hello => "Hello"
  | .interrupt => "Interrupt"
  | .invocation => "Invocation"
  | .publish => "Publish"
  | .published => "Published"
  | .register => "Register"
  | .registered => "Registered"
  | .result => "WampResult"
  | .subscribe => "Subscribe"
  | .subscribed => "Subscribed"
  | .unregister => "Unregister"
  | .unregistered => "Unregistered"
  | .unsubscribe => "Unsubscribe"
  | .unsubscribed => "Unsubscribed"
  | .welcome => "Welcome"
  | .yield' => "Yield"

/-- Run the given known type's decoder on a wire sequence and wrap the
result in the corresponding `Messages` variant. -/
def Kind.decode (k : Kind) (ws : List Value) : Except String Messages :=
  match k with
  | .abort => Messages.Abort <$> Abort.deserialize ws
  | .authenticate => Messages.Authenticate <$> Authenticate.deserialize ws
  | .call => Messages.Call <$> Call.deserialize ws
  | .cancel => Messages.Cancel <$> Cancel.deserialize ws
  | .challenge => Messages.Challenge <$> Challenge.deserialize ws
  | .error => Messages.Error <$> WampError.deserialize ws
  | .event => Messages.Event <$> Event.deserialize ws
  | .goodbye => Messages.Goodbye <$> Goodbye.deserialize ws
  | .hello => Messages.Hello <$> Hello.deserialize ws
  | .interrupt => Messages.Interrupt <$> Interrupt.deserialize ws
  | .invocation => Messages.Invocation <$> Invocation.deserialize ws
  | .publish => Messages.Publish <$> Publish.deserialize ws
  | .published => Messages.Published <$> Published.deserialize ws
  | .register => Messages.Register <$> Register.deserialize ws
  | .registered => Messages.Registered <$> Registered.deserialize ws
  | .result => Messages.Result <$> WampResult.deserialize ws
  | .subscribe => Messages.Subscribe <$> Subscribe.deserialize ws
  | .subscribed => Messages.Subscribed <$> Subscribed.deserialize ws
  | .unregister => Messages.Unregister <$> Unregister.deserialize ws
  | .unregistered => Messages.Unregistered <$> Unregistered.deserialize ws
  | .unsubscribe => Messages.Unsubscribe <$> Unsubscribe.deserialize ws
  | .unsubscribed => Messages.Unsubscribed <$> Unsubscribed.deserialize ws
  | .welcome => Messages.Welcome <$> Welcome.deserialize ws
  | .yield' => Messages.Yield <$> Yield.deserialize ws

/-- Source `factories::increment` (`src/factories.rs`) as a sequential state
transformer over the counter: read the current value, store the successor
(a `u64` addition, hence reduced modulo `2^64`), and return the stored
value.  The first component is the new counter state, the second the
returned number. -/
def increment (number : Nat) : Nat × Nat :=
  let previous := number
  let num := (previous + 1) % 2 ^ 64
  (num, num)

/-- The counter value after `n` sequential `increment` calls, starting from
the static initial value `0` (`NUMBER: RwLock<u64> = RwLock::new(0)`). -/
def counterAfter : Nat → Nat
  | 0 => 0
  | n + 1 => (increment (counterAfter n)).1

/-- Modelled from the spec: the trailing-field suppression rule of §4.1 —
nothing when neither args nor kwargs is present, args alone when only args
is present, and args (with an empty array substituted when args is absent)
followed by kwargs when kwargs is present. -/
def specTrailing (args kwargs : Value) : List Value :=
  if kwargs.isNull then
    if args.isNull then [] else [args]
  else
    [if args.isNull then .arr [] else args, kwargs]

/-- One caller of `factories::increment` under concurrent interleaving.
The source reads the counter under a read lock that it releases before
taking the write lock, so a call is two separate atomic critical sections:
first `prev` records `*NUMBER.read().unwrap()`, then the write section
stores `prev + 1` and returns the stored value. -/
structure ThreadState where
  prev : Option Nat
  result : Option Nat
deriving DecidableEq, Repr

/-- A counter shared by concurrently running `increment` callers. -/
structure RaceState where
  counter : Nat
  threads : List ThreadState
deriving DecidableEq, Repr

/-- Let thread `i` execute its next atomic critical section of
`factories::increment`: its read section if it has not read yet, otherwise
its write-and-return section.  A finished or absent thread leaves the state
unchanged. -/
def raceStep (s : RaceState) (i : Nat) : RaceState :=
  match s.threads.get? i with
  | none => s
  | some t =>
    match t.prev, t.result with
    | none, _ =>
      { s with threads := s.threads.set i { t with prev := some s.counter } }
    | some p, none =>
      let n := (p + 1) % 2 ^ 64
      { counter := n, threads := s.threads.set i { t with result := some n } }
    | some _, some _ => s

/-- Run a schedule of thread identifiers over a race state. -/
def raceRun (schedule : List Nat) (s : RaceState) : RaceState :=
  schedule.foldl raceStep s

/-- Inversion for a successful monadic bind on `Except`. -/
theorem exceptBind_ok {α β : Type} {x : Except String α}
    {f : α → Except String β} {b : β} (h : x >>= f = .ok b) :
    ∃ a, x = .ok a ∧ f a = .ok b := by
  cases x with
  | error e => exact absurd h (by simp [Bind.bind, Except.bind])
  | ok a => exact ⟨a, rfl, h⟩

/-- A successful `ser_value_is_object` returns its input, which is
map-shaped. -/
theorem serValueIsObject_ok {v w : Value} {e : String}
    (h : serValueIsObject v e = .ok w) : w = v ∧ v.isObject = true := by
  unfold serValueIsObject at h
  split at h
  · exact ⟨(Except.ok.injEq .. ▸ h).symm, by assumption⟩
  · exact absurd h (by simp)

/-- A successful `ser_value_is_args` returns its input, which is
array-shaped or null. -/
theorem serValueIsArgs_ok {v w : Value} {e : String}
    (h : serValueIsArgs v e = .ok w) :
    w = v ∧ (v.isArray || v.isNull) = true := by
  unfold serValueIsArgs at h
  split at h
  · exact ⟨(Except.ok.injEq .. ▸ h).symm, by assumption⟩
  · exact absurd h (by simp)

/-- A successful `ser_value_is_kwargs` returns its input, which is
map-shaped or null. -/
theorem serValueIsKwargs_ok {v w : Value} {e : String}
    (h : serValueIsKwargs v e = .ok w) :
    w = v ∧ (v.isObject || v.isNull) = true := by
  unfold serValueIsKwargs at h
  split at h
  · exact ⟨(Except.ok.injEq .. ▸ h).symm, by assumption⟩
  · exact absurd h (by simp)

/-- C1: every serializer with optional trailing args/kwargs emits the tag,
the required fields in declared order, and then the trailing fields under
the suppression rule `specTrailing`: nothing when both are null, args alone
when only kwargs is null, and args (an empty array when args is null)
followed by kwargs when kwargs is non-null — kwargs never appears without a
preceding args element. -/
theorem call_trailing_rule :
    (∀ (m : Call) (out : List Value), Call.serialize m = .ok out →
      out = [.num Call.ID, .num m.request_id, m.options, .str m.procedure] ++
        specTrailing m.args m.kwargs) ∧
    (∀ (m : Publish) (out : List Value), Publish.serialize m = .ok out →
      out = [.num Publish.ID, .num m.request_id, m.options, .str m.topic] ++
        specTrailing m.args m.kwargs) ∧
    (∀ (m : Event) (out : List Value), Event.serialize m = .ok out →
      out = [.num Event.ID, .num m.subscription, .num m.publication,
        m.details] ++ specTrailing m.args m.kwargs) ∧
    (∀ (m : Invocation) (out : List Value), Invocation.serialize m = .ok out →
      out = [.num Invocation.ID, .num m.request_id, .num m.registration,
        m.details] ++ specTrailing m.args m.kwargs) ∧
    (∀ (m : Yield) (out : List Value), Yield.serialize m = .ok out →
      out = [.num Yield.ID, .num m.request_id, m.options] ++
        specTrailing m.args m.kwargs) ∧
    (∀ (m : WampResult) (out : List Value), WampResult.serialize m = .ok out →
      out = [.num WampResult.ID, .num m.request_id, m.details] ++
        specTrailing m.args m.kwargs) ∧
    (∀ (m : WampError) (out : List Value), WampError.serialize m = .ok out →
      out = [.num WampError.ID, .num m.event.toId, .num m.request_id,
        m.details, .str m.error] ++ specTrailing m.args m.kwargs) := by
  refine ⟨?_, ?_, ?_, ?_, ?_, ?_, ?_⟩ <;> intro m out h
  case _ =>
    unfold Call.serialize at h
    obtain ⟨o, ho, h⟩ := exceptBind_ok h
    obtain ⟨rfl, _⟩ := serValueIsObject_ok ho
    obtain ⟨a, ha, h⟩ := exceptBind_ok h
    obtain ⟨rfl, _⟩ := serValueIsArgs_ok ha
    obtain ⟨k, hk, h⟩ := exceptBind_ok h
    obtain ⟨rfl, _⟩ := serValueIsKwargs_ok hk
    unfold specTrailing
    split at h <;> split at h <;> simp_all
  case _ =>
    unfold Publish.serialize at h
    obtain ⟨o, ho, h⟩ := exceptBind_ok h
    obtain ⟨rfl, _⟩ := serValueIsObject_ok ho
    obtain ⟨a, ha, h⟩ := exceptBind_ok h
    obtain ⟨rfl, _⟩ := serValueIsArgs_ok ha
    obtain ⟨k, hk, h⟩ := exceptBind_ok h
    obtain ⟨rfl, _⟩ := serValueIsKwargs_ok hk
    unfold specTrailing
    split at h <;> split at h <;> simp_all
  case _ =>
    unfold Event.serialize at h
    obtain ⟨a, ha, h⟩ := exceptBind_ok h
    obtain ⟨rfl, _⟩ := serValueIsArgs_ok ha
    obtain ⟨k, hk, h⟩ := exceptBind_ok h
    obtain ⟨rfl, _⟩ := serValueIsKwargs_ok hk
    unfold specTrailing
    split at h <;> split at h <;> simp_all
  case _ =>
    unfold Invocation.serialize at h
    obtain ⟨a, ha, h⟩ := exceptBind_ok h
    obtain ⟨rfl, _⟩ := serValueIsArgs_ok ha
    obtain ⟨k, hk, h⟩ := exceptBind_ok h
    obtain ⟨rfl, _⟩ := serValueIsKwargs_ok hk
    unfold specTrailing
    split at h <;> split at h <;> simp_all
  case _ =>
    unfold Yield.serialize at h
    obtain ⟨o, ho, h⟩ := exceptBind_ok h
    obtain ⟨rfl, _⟩ := serValueIsObject_ok ho
    obtain ⟨a, ha, h⟩ := exceptBind_ok h
    obtain ⟨rfl, _⟩ := serValueIsArgs_ok ha
    obtain ⟨k, hk, h⟩ := exceptBind_ok h
    obtain ⟨rfl, _⟩ := serValueIsKwargs_ok hk
    unfold specTrailing
    split at h <;> split at h <;> simp_all
  case _ =>
    unfold WampResult.serialize at h
    obtain ⟨o, ho, h⟩ := exceptBind_ok h
    obtain ⟨rfl, _⟩ := serValueIsObject_ok ho
    obtain ⟨a, ha, h⟩ := exceptBind_ok h
    obtain ⟨rfl, _⟩ := serValueIsArgs_ok ha
    obtain ⟨k, hk, h⟩ := exceptBind_ok h
    obtain ⟨rfl, _⟩ := serValueIsKwargs_ok hk
    unfold specTrailing
    split at h <;> split at h <;> simp_all
  case _ =>
    unfold WampError.serialize at h
    obtain ⟨o, ho, h⟩ := exceptBind_ok h
    obtain ⟨rfl, _⟩ := serValueIsObject_ok ho
    obtain ⟨a, ha, h⟩ := exceptBind_ok h
    obtain ⟨rfl, _⟩ := serValueIsArgs_ok ha
    obtain ⟨k, hk, h⟩ := exceptBind_ok h
    obtain ⟨rfl, _⟩ := serValueIsKwargs_ok hk
    unfold specTrailing
    split at h <;> split at h <;> simp_all

/-- A null-shaped value is `null`. -/
theorem Value.eq_null_of_isNull {v : Value} (h : v.isNull = true) :
    v = .null := by
  cases v <;> simp_all [Value.isNull]

/-- An array-shaped value is an `arr`. -/
theorem Value.exists_of_isArray {v : Value} (h : v.isArray = true) :
    ∃ l, v = .arr l := by
  cases v <;> simp_all [Value.isArray]

/-- A map-shaped value is an `obj`. -/
theorem Value.exists_of_isObject {v : Value} (h : v.isObject = true) :
    ∃ l, v = .obj l := by
  cases v <;> simp_all [Value.isObject]

/-- Source `as_u64` on an in-range non-negative integral number. -/
theorem asU64_num {n : Nat} (h : n < 2 ^ 64) :
    (Value.num n).asU64 = some n := by
  show Value.asU64 (.num (Int.ofNat n)) = some n
  rw [show Value.asU64 (.num (Int.ofNat n)) =
      (if n < 2 ^ 64 then some n else none) from rfl, if_pos h]

/-- Source `next_element::<u64>()` on an in-range number element. -/
theorem parseU64_num {n : Nat} (h : n < 2 ^ 64) :
    parseU64 (.num n) = .ok n := by
  show parseU64 (.num (Int.ofNat n)) = .ok n
  rw [show parseU64 (.num (Int.ofNat n)) =
      (if n < 2 ^ 64 then .ok n
       else .error "invalid type: expected u64") from rfl, if_pos h]

/-- serde_repr round trip for `WampErrorEvent`. -/
theorem parseErrorEvent_toId (e : WampErrorEvent) :
    parseErrorEvent (.num e.toId) = .ok e := by
  cases e <;> rfl

/-- Witness for `call_trailing_rule` at concrete messages: a Call with
kwargs but null args, a Result with both, and an Event with neither. -/
theorem call_trailing_rule_witness :
    ([Value.num Call.ID, .num 1, .obj [], .str "p", .arr [], .obj []] =
      [Value.num Call.ID, .num 1, .obj [], .str "p"] ++
        specTrailing .null (.obj [])) ∧
    ([Value.num WampResult.ID, .num 2, .obj [], .arr [.num 7], .obj []] =
      [Value.num WampResult.ID, .num 2, .obj []] ++
        specTrailing (.arr [.num 7]) (.obj [])) ∧
    ([Value.num Event.ID, .num 1, .num 2, .obj []] =
      [Value.num Event.ID, .num 1, .num 2, .obj []] ++
        specTrailing .null .null) :=
  ⟨call_trailing_rule.1
      { request_id := 1, options := .obj [], procedure := "p",
        args := .null, kwargs := .obj [] } _ rfl,
    call_trailing_rule.2.2.2.2.2.1
      { request_id := 2, details := .obj [], args := .arr [.num 7],
        kwargs := .obj [] } _ rfl,
    call_trailing_rule.2.2.1
      { subscription := 1, publication := 2, details := .obj [],
        args := .null, kwargs := .null } _ rfl⟩

/-- C4: the `Messages::id` lookup for the `Challenge` variant answers with
`Authenticate::ID` (5), not with `Challenge::ID` (4) as the protocol's tag
table requires. -/
theorem messages_id_challenge_defect :
    Messages.id (.Challenge { authmethod := "wampcra", details := .obj [] }) =
      some Authenticate.ID ∧
    Authenticate.ID = 5 ∧ Challenge.ID = 4 ∧
    Messages.id (.Challenge { authmethod := "wampcra", details := .obj [] }) ≠
      some Challenge.ID :=
  ⟨rfl, rfl, rfl, by decide⟩


/-- C3: the `Messages` dispatcher reads the leading element as an unsigned
integer, failing with a structural error when the sequence is empty or the
element is not an unsigned integer; a tag equal to a known type's constant
routes to that type's decoder wrapped in the corresponding variant; any
other tag yields `Extension` holding the entire original sequence, never an
error. -/
theorem messages_dispatch :
    (Messages.deserialize [] = .error "value") ∧
    (∀ (v : Value) (rest : List Value), v.asU64 = none →
      Messages.deserialize (v :: rest) = .error "") ∧
    (∀ (ws : List Value) (v : Value) (k : Kind),
      ws.head? = some v → v.asU64 = some k.tagId →
      Messages.deserialize ws = k.decode ws) ∧
    (∀ (ws : List Value) (v : Value) (tag : Nat),
      ws.head? = some v → v.asU64 = some tag →
      (∀ k : Kind, tag ≠ k.tagId) →
      Messages.deserialize ws = .ok (.Extension ws)) := by
  refine ⟨rfl, ?_, ?_, ?_⟩
  · intro v rest hv
    simp [Messages.deserialize, hv, Bind.bind, Except.bind]
  · intro ws v k hhead hv
    cases k <;>
      simp_all [Messages.deserialize, Kind.decode, Kind.tagId, Abort.ID,
        Authenticate.ID, Call.ID, Cancel.ID, Challenge.ID, WampError.ID,
        Event.ID, Goodbye.ID, Hello.ID, Interrupt.ID, Invocation.ID,
        Publish.ID, Published.ID, Register.ID, Registered.ID, WampResult.ID,
        Subscribe.ID, Subscribed.ID, Unregister.ID, Unregistered.ID,
        Unsubscribe.ID, Unsubscribed.ID, Welcome.ID, Yield.ID,
        Bind.bind, Except.bind]
  · intro ws v tag hhead hv hne
    simp [Messages.deserialize, hhead, hv, Bind.bind, Except.bind,
      show tag ≠ Abort.ID from hne .abort,
      show tag ≠ Authenticate.ID from hne .authenticate,
      show tag ≠ Call.ID from hne .call,
      show tag ≠ Cancel.ID from hne .cancel,
      show tag ≠ Challenge.ID from hne .challenge,
      show tag ≠ WampError.ID from hne .error,
      show tag ≠ Event.ID from hne .event,
      show tag ≠ Goodbye.ID from hne .goodbye,
      show tag ≠ Hello.ID from hne .hello,
      show tag ≠ Interrupt.ID from hne .interrupt,
      show tag ≠ Invocation.ID from hne .invocation,
      show tag ≠ Publish.ID from hne .publish,
      show tag ≠ Published.ID from hne .published,
      show tag ≠ Register.ID from hne .register,
      show tag ≠ Registered.ID from hne .registered,
      show tag ≠ WampResult.ID from hne .result,
      show tag ≠ Subscribe.ID from hne .subscribe,
      show tag ≠ Subscribed.ID from hne .subscribed,
      show tag ≠ Unregister.ID from hne .unregister,
      show tag ≠ Unregistered.ID from hne .unregistered,
      show tag ≠ Unsubscribe.ID from hne .unsubscribe,
      show tag ≠ Unsubscribed.ID from hne .unsubscribed,
      show tag ≠ Welcome.ID from hne .welcome,
      show tag ≠ Yield.ID from hne .yield']

/-- Witness for `messages_dispatch`: a Hello frame routes to the Hello
decoder, and the unknown tag 99 yields the untouched Extension. -/
theorem messages_dispatch_witness :
    (Messages.deserialize [.num 1, .str "realm", .obj []] =
      Kind.decode .hello [.num 1, .str "realm", .obj []]) ∧
    (Messages.deserialize [.num 99, .str "x"] =
      .ok (.Extension [.num 99, .str "x"])) ∧
    Kind.decode .hello [.num 1, .str "realm", .obj []] =
      .ok (.Hello { realm := "realm", details := .obj [] }) :=
  ⟨messages_dispatch.2.2.1 [.num 1, .str "realm", .obj []] (.num 1)
      .hello rfl rfl,
    messages_dispatch.2.2.2 [.num 99, .str "x"] (.num 99) 99 rfl rfl
      (by intro k; cases k <;> decide),
    rfl⟩

/-- C5: decoding a known type from a frame whose leading tag is a valid
unsigned integer different from the type's constant fails with the
tag-mismatch message naming the type, the actual tag, and the expected
constant. -/
theorem ok_bind {α β : Type} (a : α) (f : α → Except String β) :
    (Except.ok a >>= f) = f a := rfl

/-- Reading the leading tag from an in-range number element. -/
theorem deserSeqElement_parseU64_num {e : String} {rest : List Value}
    {n : Nat} (h : n < 2 ^ 64) :
    deserSeqElement parseU64 e (.num n :: rest) = .ok (n, rest) := by
  rw [deserSeqElement, parseU64_num h]
  rfl

/-- Source `validate_id` rejects a wrong tag and aborts the rest of the decode. -/
theorem validateId_bind_error {α : Type} (ID tag : Nat) (name : String)
    (h : ¬(ID = tag)) (g : Unit → Except String α) :
    (validateId ID tag name >>= g) = .error (invalidIdMsg name tag ID) := by
  rw [validateId, if_neg h]
  rfl

/-- C5: decoding a known type from a frame whose leading tag is a valid
unsigned integer different from the type's constant fails with the
tag-mismatch message naming the type, the actual tag, and the expected
constant. -/
theorem tag_mismatch (k : Kind) (tag : Nat) (rest : List Value)
    (h1 : tag < 2 ^ 64) (h2 : tag ≠ k.tagId) :
    k.decode (.num tag :: rest) =
      .error (invalidIdMsg k.tagName tag k.tagId) := by
  have h3 : ¬(k.tagId = tag) := fun e => h2 e.symm
  cases k <;>
    (simp only [Kind.tagId] at h3;
     simp only [Kind.decode, Abort.deserialize, Authenticate.deserialize,
      Call.deserialize, Cancel.deserialize, Challenge.deserialize,
      WampError.deserialize, Event.deserialize, Goodbye.deserialize,
      Hello.deserialize, Interrupt.deserialize, Invocation.deserialize,
      Publish.deserialize, Published.deserialize, Register.deserialize,
      Registered.deserialize, WampResult.deserialize, Subscribe.deserialize,
      Subscribed.deserialize, Unregister.deserialize,
      Unregistered.deserialize, Unsubscribe.deserialize,
      Unsubscribed.deserialize, Welcome.deserialize, Yield.deserialize,
      deserSeqElement_parseU64_num h1, ok_bind];
     rw [validateId, if_neg h3];
     rfl)

/-- Witness for `tag_mismatch`: a Call frame bearing tag 49 instead of 48
fails with the message naming both values and the type. -/
theorem tag_mismatch_witness :
    Kind.decode .call [.num 49, .num 1, .obj [], .str "p"] =
      .error (invalidIdMsg "Call" 49 48) :=
  tag_mismatch .call 49 [.num 1, .obj [], .str "p"] (by decide) (by decide)

/-- C9: the request-id counter starts at zero; sequentially, each call
returns one more than the previous call's return value, the first call
returns 1, and the `n`-th call returns `n` (below the `u64` bound). -/
theorem increment_sequential :
    counterAfter 0 = 0 ∧
    (increment (counterAfter 0)).2 = 1 ∧
    (∀ n : Nat, n < 2 ^ 64 → counterAfter n = n) ∧
    (∀ n : Nat, n + 1 < 2 ^ 64 →
      (increment (counterAfter n)).2 = counterAfter n + 1) := by
  have key : ∀ n : Nat, n < 2 ^ 64 → counterAfter n = n := by
    intro n
    induction n with
    | zero => intro _; rfl
    | succ m ih =>
      intro h
      have hm := ih (Nat.lt_of_succ_lt h)
      show (increment (counterAfter m)).1 = m + 1
      rw [hm]
      show (m + 1) % 2 ^ 64 = m + 1
      exact Nat.mod_eq_of_lt h
  refine ⟨rfl, rfl, key, ?_⟩
  intro n h
  have hn := key n (Nat.lt_of_succ_lt h)
  rw [hn]
  show (n + 1) % 2 ^ 64 = n + 1
  exact Nat.mod_eq_of_lt h

/-- Witness for `increment_sequential` at `n = 3`. -/
theorem increment_sequential_witness :
    counterAfter 3 = 3 ∧ (increment (counterAfter 3)).2 = counterAfter 3 + 1 :=
  ⟨increment_sequential.2.2.1 3 (by decide),
    increment_sequential.2.2.2 3 (by decide)⟩

/-- C10: the two-critical-section implementation of `increment` is not an
atomic fetch-and-add: interleaving two callers as read, read, write, write
makes both calls return 1 — a duplicated value, with 2 skipped — so
concurrent calls are not guaranteed distinct results. -/
theorem increment_race_duplicate :
    (raceRun [0, 1, 0, 1]
        { counter := 0,
          threads := [{ prev := none, result := none },
            { prev := none, result := none }] }).threads.map
      ThreadState.result = [some 1, some 1] ∧
    (raceRun [0, 1, 0, 1]
        { counter := 0,
          threads := [{ prev := none, result := none },
            { prev := none, result := none }] }).counter = 1 := by
  constructor <;> rfl

/-- C8 counterexample: the code's conformance table differs from the
claimed one — the Caller is not allowed to receive Interrupt, while it is
allowed to send Publish; the Callee may receive Error and Published; the
Broker may send Result. -/
theorem direction_matrix_counterexample :
    Interrupt.direction .caller = { receives := false, sends := false } ∧
    (Publish.direction .caller).sends = true ∧
    (WampError.direction .callee).receives = true ∧
    (Published.direction .callee).receives = true ∧
    (WampResult.direction .broker).sends = true := by
  decide

/-- C8 amended: the direction tables the code implements for the Caller,
Callee, and Broker over the message types in the claimed conformance
table.  The grants of the claim hold except that the Caller's Interrupt
flags are both false; and beyond the claimed grants the code also lets the
Caller send Publish, the Callee receive Error and Published, and the
Broker send Result. -/
theorem direction_matrix :
    Call.direction .caller = { receives := false, sends := true } ∧
    Cancel.direction .caller = { receives := false, sends := true } ∧
    WampResult.direction .caller = { receives := true, sends := false } ∧
    WampError.direction .caller = { receives := true, sends := false } ∧
    Interrupt.direction .caller = { receives := false, sends := false } ∧
    Invocation.direction .caller = { receives := false, sends := false } ∧
    Yield.direction .caller = { receives := false, sends := false } ∧
    Publish.direction .caller = { receives := false, sends := true } ∧
    Subscribe.direction .caller = { receives := false, sends := false } ∧
    Unsubscribe.direction .caller = { receives := false, sends := false } ∧
    Event.direction .caller = { receives := false, sends := false } ∧
    Published.direction .caller = { receives := false, sends := false } ∧
    Subscribed.direction .caller = { receives := false, sends := false } ∧
    Unsubscribed.direction .caller = { receives := false, sends := false } ∧
    Call.direction .callee = { receives := false, sends := false } ∧
    Cancel.direction .callee = { receives := false, sends := false } ∧
    WampResult.direction .callee = { receives := false, sends := false } ∧
    WampError.direction .callee = { receives := true, sends := true } ∧
    Interrupt.direction .callee = { receives := true, sends := false } ∧
    Invocation.direction .callee = { receives := true, sends := false } ∧
    Yield.direction .callee = { receives := false, sends := true } ∧
    Publish.direction .callee = { receives := false, sends := false } ∧
    Subscribe.direction .callee = { receives := false, sends := false } ∧
    Unsubscribe.direction .callee = { receives := false, sends := false } ∧
    Event.direction .callee = { receives := false, sends := false } ∧
    Published.direction .callee = { receives := true, sends := false } ∧
    Subscribed.direction .callee = { receives := false, sends := false } ∧
    Unsubscribed.direction .callee = { receives := false, sends := false } ∧
    Call.direction .broker = { receives := false, sends := false } ∧
    Cancel.direction .broker = { receives := false, sends := false } ∧
    WampResult.direction .broker = { receives := false, sends := true } ∧
    WampError.direction .broker = { receives := false, sends := true } ∧
    Interrupt.direction .broker = { receives := false, sends := false } ∧
    Invocation.direction .broker = { receives := false, sends := false } ∧
    Yield.direction .broker = { receives := false, sends := false } ∧
    Publish.direction .broker = { receives := true, sends := false } ∧
    Subscribe.direction .broker = { receives := true, sends := false } ∧
    Unsubscribe.direction .broker = { receives := true, sends := false } ∧
    Event.direction .broker = { receives := false, sends := true } ∧
    Published.direction .broker = { receives := false, sends := true } ∧
    Subscribed.direction .broker = { receives := false, sends := true } ∧
    Unsubscribed.direction .broker = { receives := false, sends := true } := by
  decide

/-- A trailing element accepted by `deser_args_kwargs_element` is
array-shaped or map-shaped, and the null substituted for an absent element
is null-shaped. -/
theorem deserArgsKwargs_ok {e : String} {s s' : List Value} {v : Value}
    (h : deserArgsKwargsElement e s = .ok (v, s')) :
    (v.isArray || v.isObject || v.isNull) = true := by
  cases s with
  | nil =>
    simp only [deserArgsKwargsElement, Except.ok.injEq, Prod.mk.injEq] at h
    rw [← h.1]
    rfl
  | cons w rest =>
    simp only [deserArgsKwargsElement] at h
    split at h
    · simp only [Except.ok.injEq, Prod.mk.injEq] at h
      rw [← h.1]
      rename_i hc
      rcases Bool.or_eq_true_iff.mp hc with h1 | h1 <;> simp [h1]
    · exact Except.noConfusion h

/-- Decoded Call args and kwargs are array-, map-, or null-shaped. -/
theorem call_decode_shapes {ws : List Value} {m : Call}
    (h : Call.deserialize ws = .ok m) :
    (m.args.isArray || m.args.isObject || m.args.isNull) = true ∧
    (m.kwargs.isArray || m.kwargs.isObject || m.kwargs.isNull) = true := by
  unfold Call.deserialize at h
  obtain ⟨⟨mid, s1⟩, h1, h⟩ := exceptBind_ok h
  obtain ⟨u, h2, h⟩ := exceptBind_ok h
  obtain ⟨⟨rid, s2⟩, h3, h⟩ := exceptBind_ok h
  obtain ⟨⟨opts, s3⟩, h4, h⟩ := exceptBind_ok h
  obtain ⟨u2, h5, h⟩ := exceptBind_ok h
  obtain ⟨⟨proc, s4⟩, h6, h⟩ := exceptBind_ok h
  obtain ⟨⟨argsv, s5⟩, h7, h⟩ := exceptBind_ok h
  obtain ⟨⟨kwargsv, s6⟩, h8, h⟩ := exceptBind_ok h
  obtain ⟨u3, h9, h⟩ := exceptBind_ok h
  injection h with h10
  subst h10
  exact ⟨deserArgsKwargs_ok h7, deserArgsKwargs_ok h8⟩

/-- Decoded Publish args and kwargs are array-, map-, or null-shaped. -/
theorem publish_decode_shapes {ws : List Value} {m : Publish}
    (h : Publish.deserialize ws = .ok m) :
    (m.args.isArray || m.args.isObject || m.args.isNull) = true ∧
    (m.kwargs.isArray || m.kwargs.isObject || m.kwargs.isNull) = true := by
  unfold Publish.deserialize at h
  obtain ⟨⟨mid, s1⟩, h1, h⟩ := exceptBind_ok h
  obtain ⟨u, h2, h⟩ := exceptBind_ok h
  obtain ⟨⟨rid, s2⟩, h3, h⟩ := exceptBind_ok h
  obtain ⟨⟨opts, s3⟩, h4, h⟩ := exceptBind_ok h
  obtain ⟨u2, h5, h⟩ := exceptBind_ok h
  obtain ⟨⟨topicv, s4⟩, h6, h⟩ := exceptBind_ok h
  obtain ⟨⟨argsv, s5⟩, h7, h⟩ := exceptBind_ok h
  obtain ⟨⟨kwargsv, s6⟩, h8, h⟩ := exceptBind_ok h
  obtain ⟨u3, h9, h⟩ := exceptBind_ok h
  injection h with h10
  subst h10
  exact ⟨deserArgsKwargs_ok h7, deserArgsKwargs_ok h8⟩

/-- Decoded Event args and kwargs are array-, map-, or null-shaped. -/
theorem event_decode_shapes {ws : List Value} {m : Event}
    (h : Event.deserialize ws = .ok m) :
    (m.args.isArray || m.args.isObject || m.args.isNull) = true ∧
    (m.kwargs.isArray || m.kwargs.isObject || m.kwargs.isNull) = true := by
  unfold Event.deserialize at h
  obtain ⟨⟨mid, s1⟩, h1, h⟩ := exceptBind_ok h
  obtain ⟨u, h2, h⟩ := exceptBind_ok h
  obtain ⟨⟨subv, s2⟩, h3, h⟩ := exceptBind_ok h
  obtain ⟨⟨pubv, s3⟩, h4, h⟩ := exceptBind_ok h
  obtain ⟨⟨dets, s4⟩, h5, h⟩ := exceptBind_ok h
  obtain ⟨u2, h6, h⟩ := exceptBind_ok h
  obtain ⟨⟨argsv, s5⟩, h7, h⟩ := exceptBind_ok h
  obtain ⟨⟨kwargsv, s6⟩, h8, h⟩ := exceptBind_ok h
  obtain ⟨u3, h9, h⟩ := exceptBind_ok h
  injection h with h10
  subst h10
  exact ⟨deserArgsKwargs_ok h7, deserArgsKwargs_ok h8⟩

/-- Decoded Invocation args and kwargs are array-, map-, or null-shaped. -/
theorem invocation_decode_shapes {ws : List Value} {m : Invocation}
    (h : Invocation.deserialize ws = .ok m) :
    (m.args.isArray || m.args.isObject || m.args.isNull) = true ∧
    (m.kwargs.isArray || m.kwargs.isObject || m.kwargs.isNull) = true := by
  unfold Invocation.deserialize at h
  obtain ⟨⟨mid, s1⟩, h1, h⟩ := exceptBind_ok h
  obtain ⟨u, h2, h⟩ := exceptBind_ok h
  obtain ⟨⟨rid, s2⟩, h3, h⟩ := exceptBind_ok h
  obtain ⟨⟨regv, s3⟩, h4, h⟩ := exceptBind_ok h
  obtain ⟨⟨dets, s4⟩, h5, h⟩ := exceptBind_ok h
  obtain ⟨u2, h6, h⟩ := exceptBind_ok h
  obtain ⟨⟨argsv, s5⟩, h7, h⟩ := exceptBind_ok h
  obtain ⟨⟨kwargsv, s6⟩, h8, h⟩ := exceptBind_ok h
  obtain ⟨u3, h9, h⟩ := exceptBind_ok h
  injection h with h10
  subst h10
  exact ⟨deserArgsKwargs_ok h7, deserArgsKwargs_ok h8⟩

/-- Decoded Yield args and kwargs are array-, map-, or null-shaped. -/
theorem yield_decode_shapes {ws : List Value} {m : Yield}
    (h : Yield.deserialize ws = .ok m) :
    (m.args.isArray || m.args.isObject || m.args.isNull) = true ∧
    (m.kwargs.isArray || m.kwargs.isObject || m.kwargs.isNull) = true := by
  unfold Yield.deserialize at h
  obtain ⟨⟨mid, s1⟩, h1, h⟩ := exceptBind_ok h
  obtain ⟨u, h2, h⟩ := exceptBind_ok h
  obtain ⟨⟨rid, s2⟩, h3, h⟩ := exceptBind_ok h
  obtain ⟨⟨opts, s3⟩, h4, h⟩ := exceptBind_ok h
  obtain ⟨u2, h5, h⟩ := exceptBind_ok h
  obtain ⟨⟨argsv, s5⟩, h7, h⟩ := exceptBind_ok h
  obtain ⟨⟨kwargsv, s6⟩, h8, h⟩ := exceptBind_ok h
  obtain ⟨u3, h9, h⟩ := exceptBind_ok h
  injection h with h10
  subst h10
  exact ⟨deserArgsKwargs_ok h7, deserArgsKwargs_ok h8⟩

/-- Decoded Result args and kwargs are array-, map-, or null-shaped. -/
theorem result_decode_shapes {ws : List Value} {m : WampResult}
    (h : WampResult.deserialize ws = .ok m) :
    (m.args.isArray || m.args.isObject || m.args.isNull) = true ∧
    (m.kwargs.isArray || m.kwargs.isObject || m.kwargs.isNull) = true := by
  unfold WampResult.deserialize at h
  obtain ⟨⟨mid, s1⟩, h1, h⟩ := exceptBind_ok h
  obtain ⟨u, h2, h⟩ := exceptBind_ok h
  obtain ⟨⟨rid, s2⟩, h3, h⟩ := exceptBind_ok h
  obtain ⟨⟨dets, s3⟩, h4, h⟩ := exceptBind_ok h
  obtain ⟨u2, h5, h⟩ := exceptBind_ok h
  obtain ⟨⟨argsv, s5⟩, h7, h⟩ := exceptBind_ok h
  obtain ⟨⟨kwargsv, s6⟩, h8, h⟩ := exceptBind_ok h
  obtain ⟨u3, h9, h⟩ := exceptBind_ok h
  injection h with h10
  subst h10
  exact ⟨deserArgsKwargs_ok h7, deserArgsKwargs_ok h8⟩

/-- Decoded Error args and kwargs are array-, map-, or null-shaped. -/
theorem error_decode_shapes {ws : List Value} {m : WampError}
    (h : WampError.deserialize ws = .ok m) :
    (m.args.isArray || m.args.isObject || m.args.isNull) = true ∧
    (m.kwargs.isArray || m.kwargs.isObject || m.kwargs.isNull) = true := by
  unfold WampError.deserialize at h
  obtain ⟨⟨mid, s1⟩, h1, h⟩ := exceptBind_ok h
  obtain ⟨u, h2, h⟩ := exceptBind_ok h
  obtain ⟨⟨evv, s2⟩, h3, h⟩ := exceptBind_ok h
  obtain ⟨⟨rid, s3⟩, h4, h⟩ := exceptBind_ok h
  obtain ⟨⟨dets, s4⟩, h5, h⟩ := exceptBind_ok h
  obtain ⟨u2, h6, h⟩ := exceptBind_ok h
  obtain ⟨⟨errv, s5⟩, h7, h⟩ := exceptBind_ok h
  obtain ⟨u3, h8, h⟩ := exceptBind_ok h
  obtain ⟨⟨argsv, s6⟩, h9, h⟩ := exceptBind_ok h
  obtain ⟨⟨kwargsv, s7⟩, h10, h⟩ := exceptBind_ok h
  obtain ⟨u4, h11, h⟩ := exceptBind_ok h
  injection h with h12
  subst h12
  exact ⟨deserArgsKwargs_ok h9, deserArgsKwargs_ok h10⟩

/-- C6 counterexample: decoding accepts a map-shaped args element — the
decoded Call's args is map-shaped, neither array-shaped nor null — so a
successful decode does not guarantee args is array-shaped or null. -/
theorem args_shape_counterexample :
    Call.deserialize [.num 48, .num 1, .obj [], .str "p",
        .obj [("x", .num 1)]] =
      .ok
      { request_id := 1, options := .obj [], procedure := "p",
        args := .obj [("x", .num 1)], kwargs := .null } ∧
    Value.isArray (.obj [("x", .num 1)]) = false ∧
    Value.isNull (.obj [("x", .num 1)]) = false :=
  ⟨rfl, rfl, rfl⟩

/-- C6 amended: for every message type with trailing optional fields,
whenever decoding succeeds both args and kwargs are array-shaped,
map-shaped, or null (the shared trailing-element reader accepts arrays and
maps in either position); a present trailing element of any other shape
fails with the shape message; an absent trailing element decodes to null,
not an error and not an empty container. -/
theorem args_kwargs_decode_shapes :
    (∀ (ws : List Value) (m : Call), Call.deserialize ws = .ok m →
      (m.args.isArray || m.args.isObject || m.args.isNull) = true ∧
      (m.kwargs.isArray || m.kwargs.isObject || m.kwargs.isNull) = true) ∧
    (∀ (ws : List Value) (m : Publish), Publish.deserialize ws = .ok m →
      (m.args.isArray || m.args.isObject || m.args.isNull) = true ∧
      (m.kwargs.isArray || m.kwargs.isObject || m.kwargs.isNull) = true) ∧
    (∀ (ws : List Value) (m : Event), Event.deserialize ws = .ok m →
      (m.args.isArray || m.args.isObject || m.args.isNull) = true ∧
      (m.kwargs.isArray || m.kwargs.isObject || m.kwargs.isNull) = true) ∧
    (∀ (ws : List Value) (m : Invocation), Invocation.deserialize ws = .ok m →
      (m.args.isArray || m.args.isObject || m.args.isNull) = true ∧
      (m.kwargs.isArray || m.kwargs.isObject || m.kwargs.isNull) = true) ∧
    (∀ (ws : List Value) (m : Yield), Yield.deserialize ws = .ok m →
      (m.args.isArray || m.args.isObject || m.args.isNull) = true ∧
      (m.kwargs.isArray || m.kwargs.isObject || m.kwargs.isNull) = true) ∧
    (∀ (ws : List Value) (m : WampResult), WampResult.deserialize ws = .ok m →
      (m.args.isArray || m.args.isObject || m.args.isNull) = true ∧
      (m.kwargs.isArray || m.kwargs.isObject || m.kwargs.isNull) = true) ∧
    (∀ (ws : List Value) (m : WampError), WampError.deserialize ws = .ok m →
      (m.args.isArray || m.args.isObject || m.args.isNull) = true ∧
      (m.kwargs.isArray || m.kwargs.isObject || m.kwargs.isNull) = true) ∧
    (∀ v : Value, v.isArray = false → v.isObject = false →
      Call.deserialize [.num 48, .num 1, .obj [], .str "p", v] =
        .error "Args must be array like or null." ∧
      Call.deserialize [.num 48, .num 1, .obj [], .str "p", .arr [], v] =
        .error "Kwargs must be object like or null." ∧
      Publish.deserialize [.num 16, .num 1, .obj [], .str "t", v] =
        .error "Args must be array like or null." ∧
      Publish.deserialize [.num 16, .num 1, .obj [], .str "t", .arr [], v] =
        .error "Kwargs must be object like or null." ∧
      Event.deserialize [.num 36, .num 1, .num 2, .obj [], v] =
        .error "Args must be array like or null." ∧
      Event.deserialize [.num 36, .num 1, .num 2, .obj [], .arr [], v] =
        .error "Kwargs must be object like or null." ∧
      Invocation.deserialize [.num 68, .num 1, .num 2, .obj [], v] =
        .error "Args must be array like or null." ∧
      Invocation.deserialize [.num 68, .num 1, .num 2, .obj [], .arr [], v] =
        .error "Kwargs must be object like or null." ∧
      Yield.deserialize [.num 70, .num 1, .obj [], v] =
        .error "Args must be array like or null." ∧
      Yield.deserialize [.num 70, .num 1, .obj [], .arr [], v] =
        .error "Kwargs must be object like or null." ∧
      WampResult.deserialize [.num 50, .num 1, .obj [], v] =
        .error "Args must be array like or null." ∧
      WampResult.deserialize [.num 50, .num 1, .obj [], .arr [], v] =
        .error "Kwargs must be object like or null." ∧
      WampError.deserialize [.num 8, .num 48, .num 1, .obj [], .str "e", v] =
        .error "Args must be array like or null." ∧
      WampError.deserialize
          [.num 8, .num 48, .num 1, .obj [], .str "e", .arr [], v] =
        .error "Kwargs must be object like or null.") ∧
    (Call.deserialize [.num 48, .num 1, .obj [], .str "p"] =
      .ok
      { request_id := 1, options := .obj [], procedure := "p",
        args := .null, kwargs := .null }) ∧
    (Publish.deserialize [.num 16, .num 1, .obj [], .str "t"] =
      .ok
      { request_id := 1, options := .obj [], topic := "t",
        args := .null, kwargs := .null }) ∧
    (Event.deserialize [.num 36, .num 1, .num 2, .obj []] =
      .ok
      { subscription := 1, publication := 2, details := .obj [],
        args := .null, kwargs := .null }) ∧
    (Invocation.deserialize [.num 68, .num 1, .num 2, .obj []] =
      .ok
      { request_id := 1, registration := 2, details := .obj [],
        args := .null, kwargs := .null }) ∧
    (Yield.deserialize [.num 70, .num 1, .obj []] =
      .ok
      { request_id := 1, options := .obj [],
        args := .null, kwargs := .null }) ∧
    (WampResult.deserialize [.num 50, .num 1, .obj []] =
      .ok
      { request_id := 1, details := .obj [],
        args := .null, kwargs := .null }) ∧
    (WampError.deserialize [.num 8, .num 48, .num 1, .obj [], .str "e"] =
      .ok
      { event := .call, request_id := 1, details := .obj [],
        error := "e", args := .null, kwargs := .null }) := by
  refine ⟨fun ws m h => call_decode_shapes h,
    fun ws m h => publish_decode_shapes h,
    fun ws m h => event_decode_shapes h,
    fun ws m h => invocation_decode_shapes h,
    fun ws m h => yield_decode_shapes h,
    fun ws m h => result_decode_shapes h,
    fun ws m h => error_decode_shapes h,
    ?_, rfl, rfl, rfl, rfl, rfl, rfl, rfl⟩
  intro v h1 h2
  rcases v with _ | b | n | s | l | l
  · exact ⟨rfl, rfl, rfl, rfl, rfl, rfl, rfl, rfl, rfl, rfl, rfl, rfl,
      rfl, rfl⟩
  · exact ⟨rfl, rfl, rfl, rfl, rfl, rfl, rfl, rfl, rfl, rfl, rfl, rfl,
      rfl, rfl⟩
  · exact ⟨rfl, rfl, rfl, rfl, rfl, rfl, rfl, rfl, rfl, rfl, rfl, rfl,
      rfl, rfl⟩
  · exact ⟨rfl, rfl, rfl, rfl, rfl, rfl, rfl, rfl, rfl, rfl, rfl, rfl,
      rfl, rfl⟩
  · exact absurd h1 (by simp [Value.isArray])
  · exact absurd h2 (by simp [Value.isObject])

/-- Witness for `args_kwargs_decode_shapes`: the success clauses at a
decoded Call, and the failure clauses at the scalar element 7. -/
theorem args_kwargs_decode_shapes_witness :
    ((Value.arr [Value.num 3]).isArray || (Value.arr [Value.num 3]).isObject
        || (Value.arr [Value.num 3]).isNull) = true ∧
    (Value.num 7).isArray = false ∧ (Value.num 7).isObject = false ∧
    Call.deserialize [.num 48, .num 1, .obj [], .str "p", .num 7] =
      .error "Args must be array like or null." :=
  ⟨(args_kwargs_decode_shapes.1
      [.num 48, .num 1, .obj [], .str "p", .arr [.num 3]]
      { request_id := 1, options := .obj [], procedure := "p",
        args := .arr [.num 3], kwargs := .null } rfl).1,
    rfl, rfl,
    (args_kwargs_decode_shapes.2.2.2.2.2.2.2.1 (.num 7) rfl rfl).1⟩

/-- C7 counterexample: `Subscribe`'s serializer performs no shape check, so
encoding a Subscribe whose options is an array (not map-shaped) succeeds
instead of failing with a shape error. -/
theorem subscribe_encode_unchecked :
    Subscribe.serialize { request_id := 1, options := .arr [], topic := "t" } =
      .ok [.num Subscribe.ID, .num 1, .arr [], .str "t"] ∧
    Value.isObject (.arr []) = false :=
  ⟨rfl, rfl⟩

/-- C7 amended: decoding a frame whose details/options element is not
map-shaped fails with a shape error for every message type carrying such a
field; encoding a value whose details/options is not map-shaped fails with
a shape error for every such type except Subscribe, Register, Event and
Invocation, whose serializers emit the field unchecked (Subscribe and
Register always succeed; Event and Invocation succeed whenever args and
kwargs pass their own checks). -/
theorem details_shape_checks :
    (∀ m : Abort, m.details.isObject = false →
      Abort.serialize m = .error "Details must be object like.") ∧
    (∀ m : Authenticate, m.details.isObject = false →
      Authenticate.serialize m = .error "Details must be object like.") ∧
    (∀ m : Call, m.options.isObject = false →
      Call.serialize m = .error "Options must be object like.") ∧
    (∀ m : Cancel, m.options.isObject = false →
      Cancel.serialize m = .error "Options must be object like.") ∧
    (∀ m : Challenge, m.details.isObject = false →
      Challenge.serialize m = .error "Details must be object like.") ∧
    (∀ m : WampError, m.details.isObject = false →
      WampError.serialize m = .error "Details must be Object like.") ∧
    (∀ m : Goodbye, m.details.isObject = false →
      Goodbye.serialize m = .error "Details must be object like.") ∧
    (∀ m : Hello, m.details.isObject = false →
      Hello.serialize m = .error "Details must be object like.") ∧
    (∀ m : Interrupt, m.options.isObject = false →
      Interrupt.serialize m = .error "Options must be object like.") ∧
    (∀ m : Publish, m.options.isObject = false →
      Publish.serialize m = .error "Options must be object like.") ∧
    (∀ m : WampResult, m.details.isObject = false →
      WampResult.serialize m = .error "details must be object like.") ∧
    (∀ m : Welcome, m.details.isObject = false →
      Welcome.serialize m = .error "details must be object like.") ∧
    (∀ m : Yield, m.options.isObject = false →
      Yield.serialize m = .error "options must be object like.") ∧
    (∀ m : Subscribe, Subscribe.serialize m =
      .ok [.num Subscribe.ID, .num m.request_id, m.options, .str m.topic]) ∧
    (∀ m : Register, Register.serialize m =
      .ok [.num Register.ID, .num m.request_id, m.options,
        .str m.procedure]) ∧
    (∀ m : Event, (m.args.isArray || m.args.isNull) = true →
      (m.kwargs.isObject || m.kwargs.isNull) = true →
      ∃ out, Event.serialize m = .ok out) ∧
    (∀ m : Invocation, (m.args.isArray || m.args.isNull) = true →
      (m.kwargs.isObject || m.kwargs.isNull) = true →
      ∃ out, Invocation.serialize m = .ok out) ∧
    (∀ v : Value, v.isObject = false →
      Abort.deserialize [.num 3, v, .str "r"] =
        .error "Details must be object like." ∧
      Authenticate.deserialize [.num 5, .str "sig", v] =
        .error "Value must be object like" ∧
      Call.deserialize [.num 48, .num 1, v] =
        .error "Options must be object like." ∧
      Cancel.deserialize [.num 49, .num 1, v] =
        .error "Options must be object like." ∧
      Challenge.deserialize [.num 4, .str "m", v] =
        .error "Value must be object like" ∧
      WampError.deserialize [.num 8, .num 48, .num 1, v] =
        .error "Details must be object like." ∧
      Event.deserialize [.num 36, .num 1, .num 2, v] =
        .error "Details must be object like." ∧
      Goodbye.deserialize [.num 6, v, .str "r"] =
        .error "Details must be object like." ∧
      Hello.deserialize [.num 1, .str "realm", v] =
        .error "Details must be object like." ∧
      Interrupt.deserialize [.num 69, .num 1, v] =
        .error "Options must be object like." ∧
      Invocation.deserialize [.num 68, .num 1, .num 2, v] =
        .error "Details must be object like." ∧
      Publish.deserialize [.num 16, .num 1, v] =
        .error "Options must be object like." ∧
      Register.deserialize [.num 64, .num 1, v] =
        .error "options must be object like." ∧
      WampResult.deserialize [.num 50, .num 1, v] =
        .error "details must be object like." ∧
      Subscribe.deserialize [.num 32, .num 1, v] =
        .error "options must be object like." ∧
      Welcome.deserialize [.num 2, .num 1, v] =
        .error "details must be object like." ∧
      Yield.deserialize [.num 70, .num 1, v] =
        .error "options must be object like.") := by
  refine ⟨?_, ?_, ?_, ?_, ?_, ?_, ?_, ?_, ?_, ?_, ?_, ?_, ?_,
    fun m => rfl, fun m => rfl, ?_, ?_, ?_⟩
  · intro m h
    simp [Abort.serialize, serValueIsObject, h, Bind.bind, Except.bind]
  · intro m h
    simp [Authenticate.serialize, serValueIsObject, h, Bind.bind,
      Except.bind]
  · intro m h
    simp [Call.serialize, serValueIsObject, h, Bind.bind, Except.bind]
  · intro m h
    simp [Cancel.serialize, serValueIsObject, h, Bind.bind, Except.bind]
  · intro m h
    simp [Challenge.serialize, serValueIsObject, h, Bind.bind, Except.bind]
  · intro m h
    simp [WampError.serialize, serValueIsObject, h, Bind.bind, Except.bind]
  · intro m h
    simp [Goodbye.serialize, serValueIsObject, h, Bind.bind, Except.bind]
  · intro m h
    simp [Hello.serialize, serValueIsObject, h, Bind.bind, Except.bind]
  · intro m h
    simp [Interrupt.serialize, serValueIsObject, h, Bind.bind, Except.bind]
  · intro m h
    simp [Publish.serialize, serValueIsObject, h, Bind.bind, Except.bind]
  · intro m h
    simp [WampResult.serialize, serValueIsObject, h, Bind.bind, Except.bind]
  · intro m h
    simp [Welcome.serialize, serValueIsObject, h, Bind.bind, Except.bind]
  · intro m h
    simp [Yield.serialize, serValueIsObject, h, Bind.bind, Except.bind]
  · intro m ha hk
    simp only [Event.serialize, serValueIsArgs, serValueIsKwargs, ha, hk,
      if_true, ok_bind]
    cases hn : m.args.isNull <;> cases hk2 : m.kwargs.isNull <;>
      simp [hn, hk2]
  · intro m ha hk
    simp only [Invocation.serialize, serValueIsArgs, serValueIsKwargs, ha,
      hk, if_true, ok_bind]
    cases hn : m.args.isNull <;> cases hk2 : m.kwargs.isNull <;>
      simp [hn, hk2]
  · intro v h
    rcases v with _ | b | n | s | l | l
    · exact ⟨rfl, rfl, rfl, rfl, rfl, rfl, rfl, rfl, rfl, rfl, rfl, rfl,
        rfl, rfl, rfl, rfl, rfl⟩
    · exact ⟨rfl, rfl, rfl, rfl, rfl, rfl, rfl, rfl, rfl, rfl, rfl, rfl,
        rfl, rfl, rfl, rfl, rfl⟩
    · exact ⟨rfl, rfl, rfl, rfl, rfl, rfl, rfl, rfl, rfl, rfl, rfl, rfl,
        rfl, rfl, rfl, rfl, rfl⟩
    · exact ⟨rfl, rfl, rfl, rfl, rfl, rfl, rfl, rfl, rfl, rfl, rfl, rfl,
        rfl, rfl, rfl, rfl, rfl⟩
    · exact ⟨rfl, rfl, rfl, rfl, rfl, rfl, rfl, rfl, rfl, rfl, rfl, rfl,
        rfl, rfl, rfl, rfl, rfl⟩
    · exact absurd h (by simp [Value.isObject])

/-- Witness for `details_shape_checks`: a Call with array-shaped options
fails to encode, a Subscribe with the same options encodes, and a Hello
frame with numeric details fails to decode. -/
theorem details_shape_checks_witness :
    Call.serialize
        { request_id := 1, options := .arr [], procedure := "p",
          args := .null, kwargs := .null } =
      .error "Options must be object like." ∧
    Subscribe.serialize { request_id := 1, options := .arr [], topic := "t" } =
      .ok [.num Subscribe.ID, .num 1, .arr [], .str "t"] ∧
    Hello.deserialize [.num 1, .str "realm", .num 5] =
      .error "Details must be object like." :=
  ⟨details_shape_checks.2.2.1
      { request_id := 1, options := .arr [], procedure := "p",
        args := .null, kwargs := .null } rfl,
    details_shape_checks.2.2.2.2.2.2.2.2.2.2.2.2.2.1
      { request_id := 1, options := .arr [], topic := "t" },
    (details_shape_checks.2.2.2.2.2.2.2.2.2.2.2.2.2.2.2.2.2
      (.num 5) rfl).2.2.2.2.2.2.2.2.1⟩

/-- Shape tests on constructors. -/
theorem Value.isObject_obj (l : List (String × Value)) :
    (Value.obj l).isObject = true := rfl

theorem Value.isArray_obj (l : List (String × Value)) :
    (Value.obj l).isArray = false := rfl

theorem Value.isNull_obj (l : List (String × Value)) :
    (Value.obj l).isNull = false := rfl

theorem Value.isObject_arr (l : List Value) :
    (Value.arr l).isObject = false := rfl

theorem Value.isArray_arr (l : List Value) :
    (Value.arr l).isArray = true := rfl

theorem Value.isNull_arr (l : List Value) :
    (Value.arr l).isNull = false := rfl

theorem Value.isNull_null : Value.null.isNull = true := rfl

/-- Reading a string element. -/
theorem deserSeqElement_parseString {e : String} {s : String}
    {rest : List Value} :
    deserSeqElement parseString e (.str s :: rest) = .ok (s, rest) := rfl

/-- Reading a raw value element. -/
theorem deserSeqElement_parseValue {e : String} {v : Value}
    {rest : List Value} :
    deserSeqElement parseValue e (v :: rest) = .ok (v, rest) := rfl

/-- Reading a `WampErrorEvent` element from its own wire representation. -/
theorem deserSeqElement_parseErrorEvent {e : String} {ev : WampErrorEvent}
    {rest : List Value} :
    deserSeqElement parseErrorEvent e (.num ev.toId :: rest) =
      .ok (ev, rest) := by
  cases ev <;> rfl

/-- Round trip for Published. -/
theorem published_roundtrip {m : Published} (h1 : m.request_id < 2 ^ 64)
    (h2 : m.publication < 2 ^ 64) {out : List Value}
    (h : Published.serialize m = .ok out) :
    Published.deserialize out = .ok m := by
  injection h with h'
  subst h'
  simp [Published.deserialize,
    deserSeqElement_parseU64_num (show Published.ID < 2 ^ 64 by decide),
    deserSeqElement_parseU64_num h1, deserSeqElement_parseU64_num h2,
    validateId, ok_bind, endOfSeq]

/-- Round trip for Hello. -/
theorem hello_roundtrip {m : Hello} (hdet : m.details.isObject = true)
    {out : List Value} (h : Hello.serialize m = .ok out) :
    Hello.deserialize out = .ok m := by
  simp only [Hello.serialize, serValueIsObject, hdet, if_true, ok_bind] at h
  injection h with h'
  subst h'
  simp [Hello.deserialize,
    deserSeqElement_parseU64_num (show Hello.ID < 2 ^ 64 by decide),
    deserSeqElement_parseString, deserSeqElement_parseValue,
    validateId, deserValueIsObject, hdet, ok_bind, endOfSeq]

/-- Round trip for Call (args non-null whenever kwargs is non-null). -/
theorem call_roundtrip {m : Call} (h1 : m.request_id < 2 ^ 64)
    (hopt : m.options.isObject = true)
    (hargs : (m.args.isArray || m.args.isNull) = true)
    (hkwargs : (m.kwargs.isObject || m.kwargs.isNull) = true)
    (hexc : m.args = .null → m.kwargs = .null) {out : List Value}
    (h : Call.serialize m = .ok out) :
    Call.deserialize out = .ok m := by
  obtain ⟨rid, opts, proc, args, kwargs⟩ := m
  dsimp only at h1 hopt hargs hkwargs hexc h ⊢
  simp only [Call.serialize, serValueIsObject, serValueIsArgs,
    serValueIsKwargs, hopt, hargs, hkwargs, if_true, ok_bind] at h
  by_cases hn : args.isNull = true
  · have := Value.eq_null_of_isNull hn
    subst this
    have := hexc rfl
    subst this
    simp only [Value.isNull_null, if_true] at h
    injection h with h'
    subst h'
    simp [Call.deserialize,
      deserSeqElement_parseU64_num (show Call.ID < 2 ^ 64 by decide),
      deserSeqElement_parseU64_num h1, deserSeqElement_parseString,
      deserSeqElement_parseValue, validateId, deserValueIsObject, hopt,
      deserArgsKwargsElement, endOfSeq, ok_bind]
  · have hna : args.isArray = true := by
      rcases Bool.or_eq_true_iff.mp hargs with ha | ha
      · exact ha
      · exact absurd ha hn
    obtain ⟨al, rfl⟩ := Value.exists_of_isArray hna
    by_cases hk : kwargs.isNull = true
    · have := Value.eq_null_of_isNull hk
      subst this
      simp only [Value.isNull_arr, Value.isNull_null, Bool.false_eq_true,
        if_false, if_true] at h
      injection h with h'
      subst h'
      simp [Call.deserialize,
        deserSeqElement_parseU64_num (show Call.ID < 2 ^ 64 by decide),
        deserSeqElement_parseU64_num h1, deserSeqElement_parseString,
        deserSeqElement_parseValue, validateId, deserValueIsObject, hopt,
        deserArgsKwargsElement, Value.isObject_arr, Value.isArray_arr,
        endOfSeq, ok_bind]
    · have hko : kwargs.isObject = true := by
        rcases Bool.or_eq_true_iff.mp hkwargs with hb | hb
        · exact hb
        · exact absurd hb hk
      obtain ⟨kl, rfl⟩ := Value.exists_of_isObject hko
      simp only [Value.isNull_arr, Value.isNull_obj, Bool.false_eq_true,
        if_false] at h
      injection h with h'
      subst h'
      simp [Call.deserialize,
        deserSeqElement_parseU64_num (show Call.ID < 2 ^ 64 by decide),
        deserSeqElement_parseU64_num h1, deserSeqElement_parseString,
        deserSeqElement_parseValue, validateId, deserValueIsObject, hopt,
        deserArgsKwargsElement, Value.isObject_arr, Value.isArray_arr,
        Value.isObject_obj, Value.isArray_obj, endOfSeq, ok_bind]

/-- Round trip for Registered. -/
theorem registered_roundtrip {m : Registered} (h1 : m.request_id < 2 ^ 64)
    (h2 : m.registration < 2 ^ 64) {out : List Value}
    (h : Registered.serialize m = .ok out) :
    Registered.deserialize out = .ok m := by
  injection h with h'
  subst h'
  simp [Registered.deserialize,
    deserSeqElement_parseU64_num (show Registered.ID < 2 ^ 64 by decide),
    deserSeqElement_parseU64_num h1, deserSeqElement_parseU64_num h2,
    validateId, ok_bind, endOfSeq]

/-- Round trip for Subscribed. -/
theorem subscribed_roundtrip {m : Subscribed} (h1 : m.request_id < 2 ^ 64)
    (h2 : m.subscription < 2 ^ 64) {out : List Value}
    (h : Subscribed.serialize m = .ok out) :
    Subscribed.deserialize out = .ok m := by
  injection h with h'
  subst h'
  simp [Subscribed.deserialize,
    deserSeqElement_parseU64_num (show Subscribed.ID < 2 ^ 64 by decide),
    deserSeqElement_parseU64_num h1, deserSeqElement_parseU64_num h2,
    validateId, ok_bind, endOfSeq]

/-- Round trip for Unregister. -/
theorem unregister_roundtrip {m : Unregister} (h1 : m.request_id < 2 ^ 64)
    (h2 : m.registration < 2 ^ 64) {out : List Value}
    (h : Unregister.serialize m = .ok out) :
    Unregister.deserialize out = .ok m := by
  injection h with h'
  subst h'
  simp [Unregister.deserialize,
    deserSeqElement_parseU64_num (show Unregister.ID < 2 ^ 64 by decide),
    deserSeqElement_parseU64_num h1, deserSeqElement_parseU64_num h2,
    validateId, ok_bind, endOfSeq]

/-- Round trip for Unsubscribe. -/
theorem unsubscribe_roundtrip {m : Unsubscribe} (h1 : m.request_id < 2 ^ 64)
    (h2 : m.subscription < 2 ^ 64) {out : List Value}
    (h : Unsubscribe.serialize m = .ok out) :
    Unsubscribe.deserialize out = .ok m := by
  injection h with h'
  subst h'
  simp [Unsubscribe.deserialize,
    deserSeqElement_parseU64_num (show Unsubscribe.ID < 2 ^ 64 by decide),
    deserSeqElement_parseU64_num h1, deserSeqElement_parseU64_num h2,
    validateId, ok_bind, endOfSeq]

/-- Round trip for Unregistered. -/
theorem unregistered_roundtrip {m : Unregistered} (h1 : m.request_id < 2 ^ 64)
    {out : List Value} (h : Unregistered.serialize m = .ok out) :
    Unregistered.deserialize out = .ok m := by
  injection h with h'
  subst h'
  simp [Unregistered.deserialize,
    deserSeqElement_parseU64_num (show Unregistered.ID < 2 ^ 64 by decide),
    deserSeqElement_parseU64_num h1, validateId, ok_bind, endOfSeq]

/-- Round trip for Unsubscribed. -/
theorem unsubscribed_roundtrip {m : Unsubscribed} (h1 : m.request_id < 2 ^ 64)
    {out : List Value} (h : Unsubscribed.serialize m = .ok out) :
    Unsubscribed.deserialize out = .ok m := by
  injection h with h'
  subst h'
  simp [Unsubscribed.deserialize,
    deserSeqElement_parseU64_num (show Unsubscribed.ID < 2 ^ 64 by decide),
    deserSeqElement_parseU64_num h1, validateId, ok_bind, endOfSeq]

/-- Round trip for Welcome. -/
theorem welcome_roundtrip {m : Welcome} (h1 : m.session < 2 ^ 64)
    (hdet : m.details.isObject = true) {out : List Value}
    (h : Welcome.serialize m = .ok out) :
    Welcome.deserialize out = .ok m := by
  simp only [Welcome.serialize, serValueIsObject, hdet, if_true,
    ok_bind] at h
  injection h with h'
  subst h'
  simp [Welcome.deserialize,
    deserSeqElement_parseU64_num (show Welcome.ID < 2 ^ 64 by decide),
    deserSeqElement_parseU64_num h1, deserSeqElement_parseValue,
    validateId, deserValueIsObject, hdet, ok_bind, endOfSeq]

/-- Round trip for Abort. -/
theorem abort_roundtrip {m : Abort} (hdet : m.details.isObject = true)
    {out : List Value} (h : Abort.serialize m = .ok out) :
    Abort.deserialize out = .ok m := by
  simp only [Abort.serialize, serValueIsObject, hdet, if_true, ok_bind] at h
  injection h with h'
  subst h'
  simp [Abort.deserialize,
    deserSeqElement_parseU64_num (show Abort.ID < 2 ^ 64 by decide),
    deserSeqElement_parseString, deserSeqElement_parseValue,
    validateId, deserValueIsObject, hdet, ok_bind, endOfSeq]

/-- Round trip for Goodbye. -/
theorem goodbye_roundtrip {m : Goodbye} (hdet : m.details.isObject = true)
    {out : List Value} (h : Goodbye.serialize m = .ok out) :
    Goodbye.deserialize out = .ok m := by
  simp only [Goodbye.serialize, serValueIsObject, hdet, if_true,
    ok_bind] at h
  injection h with h'
  subst h'
  simp [Goodbye.deserialize,
    deserSeqElement_parseU64_num (show Goodbye.ID < 2 ^ 64 by decide),
    deserSeqElement_parseString, deserSeqElement_parseValue,
    validateId, deserValueIsObject, hdet, ok_bind, endOfSeq]

/-- Round trip for Challenge. -/
theorem challenge_roundtrip {m : Challenge}
    (hdet : m.details.isObject = true) {out : List Value}
    (h : Challenge.serialize m = .ok out) :
    Challenge.deserialize out = .ok m := by
  simp only [Challenge.serialize, serValueIsObject, hdet, if_true,
    ok_bind] at h
  injection h with h'
  subst h'
  simp [Challenge.deserialize,
    deserSeqElement_parseU64_num (show Challenge.ID < 2 ^ 64 by decide),
    deserSeqElement_parseString, deserSeqElement_parseValue,
    validateId, deserValueIsObject, hdet, ok_bind, endOfSeq]

/-- Round trip for Authenticate. -/
theorem authenticate_roundtrip {m : Authenticate}
    (hdet : m.details.isObject = true) {out : List Value}
    (h : Authenticate.serialize m = .ok out) :
    Authenticate.deserialize out = .ok m := by
  simp only [Authenticate.serialize, serValueIsObject, hdet, if_true,
    ok_bind] at h
  injection h with h'
  subst h'
  simp [Authenticate.deserialize,
    deserSeqElement_parseU64_num (show Authenticate.ID < 2 ^ 64 by decide),
    deserSeqElement_parseString, deserSeqElement_parseValue,
    validateId, deserValueIsObject, hdet, ok_bind, endOfSeq]

/-- Round trip for Cancel. -/
theorem cancel_roundtrip {m : Cancel} (h1 : m.request_id < 2 ^ 64)
    (hopt : m.options.isObject = true) {out : List Value}
    (h : Cancel.serialize m = .ok out) :
    Cancel.deserialize out = .ok m := by
  simp only [Cancel.serialize, serValueIsObject, hopt, if_true, ok_bind] at h
  injection h with h'
  subst h'
  simp [Cancel.deserialize,
    deserSeqElement_parseU64_num (show Cancel.ID < 2 ^ 64 by decide),
    deserSeqElement_parseU64_num h1, deserSeqElement_parseValue,
    validateId, deserValueIsObject, hopt, ok_bind, endOfSeq]

/-- Round trip for Interrupt. -/
theorem interrupt_roundtrip {m : Interrupt} (h1 : m.request_id < 2 ^ 64)
    (hopt : m.options.isObject = true) {out : List Value}
    (h : Interrupt.serialize m = .ok out) :
    Interrupt.deserialize out = .ok m := by
  simp only [Interrupt.serialize, serValueIsObject, hopt, if_true,
    ok_bind] at h
  injection h with h'
  subst h'
  simp [Interrupt.deserialize,
    deserSeqElement_parseU64_num (show Interrupt.ID < 2 ^ 64 by decide),
    deserSeqElement_parseU64_num h1, deserSeqElement_parseValue,
    validateId, deserValueIsObject, hopt, ok_bind, endOfSeq]

/-- Round trip for Subscribe (decoding validates the options shape the
unchecked encoder emitted). -/
theorem subscribe_roundtrip {m : Subscribe} (h1 : m.request_id < 2 ^ 64)
    (hopt : m.options.isObject = true) {out : List Value}
    (h : Subscribe.serialize m = .ok out) :
    Subscribe.deserialize out = .ok m := by
  injection h with h'
  subst h'
  simp [Subscribe.deserialize,
    deserSeqElement_parseU64_num (show Subscribe.ID < 2 ^ 64 by decide),
    deserSeqElement_parseU64_num h1, deserSeqElement_parseString,
    deserSeqElement_parseValue, validateId, deserValueIsObject, hopt,
    ok_bind, endOfSeq]

/-- Round trip for Register (decoding validates the options shape the
unchecked encoder emitted). -/
theorem register_roundtrip {m : Register} (h1 : m.request_id < 2 ^ 64)
    (hopt : m.options.isObject = true) {out : List Value}
    (h : Register.serialize m = .ok out) :
    Register.deserialize out = .ok m := by
  injection h with h'
  subst h'
  simp [Register.deserialize,
    deserSeqElement_parseU64_num (show Register.ID < 2 ^ 64 by decide),
    deserSeqElement_parseU64_num h1, deserSeqElement_parseString,
    deserSeqElement_parseValue, validateId, deserValueIsObject, hopt,
    ok_bind, endOfSeq]

/-- Round trip for Publish (args non-null whenever kwargs is non-null). -/
theorem publish_roundtrip {m : Publish}
    (h1 : m.request_id < 2 ^ 64)
    (hopt : m.options.isObject = true)
    (hargs : (m.args.isArray || m.args.isNull) = true)
    (hkwargs : (m.kwargs.isObject || m.kwargs.isNull) = true)
    (hexc : m.args = .null → m.kwargs = .null) {out : List Value}
    (h : Publish.serialize m = .ok out) :
    Publish.deserialize out = .ok m := by
  obtain ⟨rid, opts, topic, args, kwargs⟩ := m
  dsimp only at *
  simp only [Publish.serialize, serValueIsObject, hopt, serValueIsArgs,
    serValueIsKwargs, hargs, hkwargs, if_true, ok_bind] at h
  by_cases hn : args.isNull = true
  · have := Value.eq_null_of_isNull hn
    subst this
    have := hexc rfl
    subst this
    simp only [Value.isNull_null, if_true] at h
    injection h with h'
    subst h'
    simp [Publish.deserialize,
      deserSeqElement_parseU64_num (show Publish.ID < 2 ^ 64 by decide),
      deserSeqElement_parseU64_num h1, deserSeqElement_parseString,
      deserSeqElement_parseValue, hopt,
      validateId, deserValueIsObject, deserArgsKwargsElement,
      endOfSeq, ok_bind]
  · have hna : args.isArray = true := by
      rcases Bool.or_eq_true_iff.mp hargs with ha | ha
      · exact ha
      · exact absurd ha hn
    obtain ⟨al, rfl⟩ := Value.exists_of_isArray hna
    by_cases hk : kwargs.isNull = true
    · have := Value.eq_null_of_isNull hk
      subst this
      simp only [Value.isNull_arr, Value.isNull_null, Bool.false_eq_true,
        if_false, if_true] at h
      injection h with h'
      subst h'
      simp [Publish.deserialize,
        deserSeqElement_parseU64_num (show Publish.ID < 2 ^ 64 by decide),
        deserSeqElement_parseU64_num h1, deserSeqElement_parseString,
      deserSeqElement_parseValue, hopt,
        validateId, deserValueIsObject, deserArgsKwargsElement,
        Value.isObject_arr, Value.isArray_arr, endOfSeq, ok_bind]
    · have hko : kwargs.isObject = true := by
        rcases Bool.or_eq_true_iff.mp hkwargs with hb | hb
        · exact hb
        · exact absurd hb hk
      obtain ⟨kl, rfl⟩ := Value.exists_of_isObject hko
      simp only [Value.isNull_arr, Value.isNull_obj, Bool.false_eq_true,
        if_false] at h
      injection h with h'
      subst h'
      simp [Publish.deserialize,
        deserSeqElement_parseU64_num (show Publish.ID < 2 ^ 64 by decide),
        deserSeqElement_parseU64_num h1, deserSeqElement_parseString,
      deserSeqElement_parseValue, hopt,
        validateId, deserValueIsObject, deserArgsKwargsElement,
        Value.isObject_arr, Value.isArray_arr, Value.isObject_obj,
        Value.isArray_obj, endOfSeq, ok_bind]

/-- Round trip for Yield (args non-null whenever kwargs is non-null). -/
theorem yield_roundtrip {m : Yield}
    (h1 : m.request_id < 2 ^ 64)
    (hopt : m.options.isObject = true)
    (hargs : (m.args.isArray || m.args.isNull) = true)
    (hkwargs : (m.kwargs.isObject || m.kwargs.isNull) = true)
    (hexc : m.args = .null → m.kwargs = .null) {out : List Value}
    (h : Yield.serialize m = .ok out) :
    Yield.deserialize out = .ok m := by
  obtain ⟨rid, opts, args, kwargs⟩ := m
  dsimp only at *
  simp only [Yield.serialize, serValueIsObject, hopt, serValueIsArgs,
    serValueIsKwargs, hargs, hkwargs, if_true, ok_bind] at h
  by_cases hn : args.isNull = true
  · have := Value.eq_null_of_isNull hn
    subst this
    have := hexc rfl
    subst this
    simp only [Value.isNull_null, if_true] at h
    injection h with h'
    subst h'
    simp [Yield.deserialize,
      deserSeqElement_parseU64_num (show Yield.ID < 2 ^ 64 by decide),
      deserSeqElement_parseU64_num h1,
      deserSeqElement_parseValue, hopt,
      validateId, deserValueIsObject, deserArgsKwargsElement,
      endOfSeq, ok_bind]
  · have hna : args.isArray = true := by
      rcases Bool.or_eq_true_iff.mp hargs with ha | ha
      · exact ha
      · exact absurd ha hn
    obtain ⟨al, rfl⟩ := Value.exists_of_isArray hna
    by_cases hk : kwargs.isNull = true
    · have := Value.eq_null_of_isNull hk
      subst this
      simp only [Value.isNull_arr, Value.isNull_null, Bool.false_eq_true,
        if_false, if_true] at h
      injection h with h'
      subst h'
      simp [Yield.deserialize,
        deserSeqElement_parseU64_num (show Yield.ID < 2 ^ 64 by decide),
        deserSeqElement_parseU64_num h1,
      deserSeqElement_parseValue, hopt,
        validateId, deserValueIsObject, deserArgsKwargsElement,
        Value.isObject_arr, Value.isArray_arr, endOfSeq, ok_bind]
    · have hko : kwargs.isObject = true := by
        rcases Bool.or_eq_true_iff.mp hkwargs with hb | hb
        · exact hb
        · exact absurd hb hk
      obtain ⟨kl, rfl⟩ := Value.exists_of_isObject hko
      simp only [Value.isNull_arr, Value.isNull_obj, Bool.false_eq_true,
        if_false] at h
      injection h with h'
      subst h'
      simp [Yield.deserialize,
        deserSeqElement_parseU64_num (show Yield.ID < 2 ^ 64 by decide),
        deserSeqElement_parseU64_num h1,
      deserSeqElement_parseValue, hopt,
        validateId, deserValueIsObject, deserArgsKwargsElement,
        Value.isObject_arr, Value.isArray_arr, Value.isObject_obj,
        Value.isArray_obj, endOfSeq, ok_bind]

/-- Round trip for WampResult (args non-null whenever kwargs is non-null). -/
theorem result_roundtrip {m : WampResult}
    (h1 : m.request_id < 2 ^ 64)
    (hdet : m.details.isObject = true)
    (hargs : (m.args.isArray || m.args.isNull) = true)
    (hkwargs : (m.kwargs.isObject || m.kwargs.isNull) = true)
    (hexc : m.args = .null → m.kwargs = .null) {out : List Value}
    (h : WampResult.serialize m = .ok out) :
    WampResult.deserialize out = .ok m := by
  obtain ⟨rid, dets, args, kwargs⟩ := m
  dsimp only at *
  simp only [WampResult.serialize, serValueIsObject, hdet, serValueIsArgs,
    serValueIsKwargs, hargs, hkwargs, if_true, ok_bind] at h
  by_cases hn : args.isNull = true
  · have := Value.eq_null_of_isNull hn
    subst this
    have := hexc rfl
    subst this
    simp only [Value.isNull_null, if_true] at h
    injection h with h'
    subst h'
    simp [WampResult.deserialize,
      deserSeqElement_parseU64_num (show WampResult.ID < 2 ^ 64 by decide),
      deserSeqElement_parseU64_num h1,
      deserSeqElement_parseValue, hdet,
      validateId, deserValueIsObject, deserArgsKwargsElement,
      endOfSeq, ok_bind]
  · have hna : args.isArray = true := by
      rcases Bool.or_eq_true_iff.mp hargs with ha | ha
      · exact ha
      · exact absurd ha hn
    obtain ⟨al, rfl⟩ := Value.exists_of_isArray hna
    by_cases hk : kwargs.isNull = true
    · have := Value.eq_null_of_isNull hk
      subst this
      simp only [Value.isNull_arr, Value.isNull_null, Bool.false_eq_true,
        if_false, if_true] at h
      injection h with h'
      subst h'
      simp [WampResult.deserialize,
        deserSeqElement_parseU64_num (show WampResult.ID < 2 ^ 64 by decide),
        deserSeqElement_parseU64_num h1,
      deserSeqElement_parseValue, hdet,
        validateId, deserValueIsObject, deserArgsKwargsElement,
        Value.isObject_arr, Value.isArray_arr, endOfSeq, ok_bind]
    · have hko : kwargs.isObject = true := by
        rcases Bool.or_eq_true_iff.mp hkwargs with hb | hb
        · exact hb
        · exact absurd hb hk
      obtain ⟨kl, rfl⟩ := Value.exists_of_isObject hko
      simp only [Value.isNull_arr, Value.isNull_obj, Bool.false_eq_true,
        if_false] at h
      injection h with h'
      subst h'
      simp [WampResult.deserialize,
        deserSeqElement_parseU64_num (show WampResult.ID < 2 ^ 64 by decide),
        deserSeqElement_parseU64_num h1,
      deserSeqElement_parseValue, hdet,
        validateId, deserValueIsObject, deserArgsKwargsElement,
        Value.isObject_arr, Value.isArray_arr, Value.isObject_obj,
        Value.isArray_obj, endOfSeq, ok_bind]

/-- Round trip for Event (args non-null whenever kwargs is non-null). -/
theorem event_roundtrip {m : Event}
    (h1 : m.subscription < 2 ^ 64)
    (h2 : m.publication < 2 ^ 64)
    (hdet : m.details.isObject = true)
    (hargs : (m.args.isArray || m.args.isNull) = true)
    (hkwargs : (m.kwargs.isObject || m.kwargs.isNull) = true)
    (hexc : m.args = .null → m.kwargs = .null) {out : List Value}
    (h : Event.serialize m = .ok out) :
    Event.deserialize out = .ok m := by
  obtain ⟨subv, pubv, dets, args, kwargs⟩ := m
  dsimp only at *
  simp only [Event.serialize, serValueIsArgs,
    serValueIsKwargs, hargs, hkwargs, if_true, ok_bind] at h
  by_cases hn : args.isNull = true
  · have := Value.eq_null_of_isNull hn
    subst this
    have := hexc rfl
    subst this
    simp only [Value.isNull_null, if_true] at h
    injection h with h'
    subst h'
    simp [Event.deserialize,
      deserSeqElement_parseU64_num (show Event.ID < 2 ^ 64 by decide),
      deserSeqElement_parseU64_num h1, deserSeqElement_parseU64_num h2,
      deserSeqElement_parseValue, hdet,
      validateId, deserValueIsObject, deserArgsKwargsElement,
      endOfSeq, ok_bind]
  · have hna : args.isArray = true := by
      rcases Bool.or_eq_true_iff.mp hargs with ha | ha
      · exact ha
      · exact absurd ha hn
    obtain ⟨al, rfl⟩ := Value.exists_of_isArray hna
    by_cases hk : kwargs.isNull = true
    · have := Value.eq_null_of_isNull hk
      subst this
      simp only [Value.isNull_arr, Value.isNull_null, Bool.false_eq_true,
        if_false, if_true] at h
      injection h with h'
      subst h'
      simp [Event.deserialize,
        deserSeqElement_parseU64_num (show Event.ID < 2 ^ 64 by decide),
        deserSeqElement_parseU64_num h1, deserSeqElement_parseU64_num h2,
      deserSeqElement_parseValue, hdet,
        validateId, deserValueIsObject, deserArgsKwargsElement,
        Value.isObject_arr, Value.isArray_arr, endOfSeq, ok_bind]
    · have hko : kwargs.isObject = true := by
        rcases Bool.or_eq_true_iff.mp hkwargs with hb | hb
        · exact hb
        · exact absurd hb hk
      obtain ⟨kl, rfl⟩ := Value.exists_of_isObject hko
      simp only [Value.isNull_arr, Value.isNull_obj, Bool.false_eq_true,
        if_false] at h
      injection h with h'
      subst h'
      simp [Event.deserialize,
        deserSeqElement_parseU64_num (show Event.ID < 2 ^ 64 by decide),
        deserSeqElement_parseU64_num h1, deserSeqElement_parseU64_num h2,
      deserSeqElement_parseValue, hdet,
        validateId, deserValueIsObject, deserArgsKwargsElement,
        Value.isObject_arr, Value.isArray_arr, Value.isObject_obj,
        Value.isArray_obj, endOfSeq, ok_bind]

/-- Round trip for Invocation (args non-null whenever kwargs is non-null). -/
theorem invocation_roundtrip {m : Invocation}
    (h1 : m.request_id < 2 ^ 64)
    (h2 : m.registration < 2 ^ 64)
    (hdet : m.details.isObject = true)
    (hargs : (m.args.isArray || m.args.isNull) = true)
    (hkwargs : (m.kwargs.isObject || m.kwargs.isNull) = true)
    (hexc : m.args = .null → m.kwargs = .null) {out : List Value}
    (h : Invocation.serialize m = .ok out) :
    Invocation.deserialize out = .ok m := by
  obtain ⟨rid, regv, dets, args, kwargs⟩ := m
  dsimp only at *
  simp only [Invocation.serialize, serValueIsArgs,
    serValueIsKwargs, hargs, hkwargs, if_true, ok_bind] at h
  by_cases hn : args.isNull = true
  · have := Value.eq_null_of_isNull hn
    subst this
    have := hexc rfl
    subst this
    simp only [Value.isNull_null, if_true] at h
    injection h with h'
    subst h'
    simp [Invocation.deserialize,
      deserSeqElement_parseU64_num (show Invocation.ID < 2 ^ 64 by decide),
      deserSeqElement_parseU64_num h1, deserSeqElement_parseU64_num h2,
      deserSeqElement_parseValue, hdet,
      validateId, deserValueIsObject, deserArgsKwargsElement,
      endOfSeq, ok_bind]
  · have hna : args.isArray = true := by
      rcases Bool.or_eq_true_iff.mp hargs with ha | ha
      · exact ha
      · exact absurd ha hn
    obtain ⟨al, rfl⟩ := Value.exists_of_isArray hna
    by_cases hk : kwargs.isNull = true
    · have := Value.eq_null_of_isNull hk
      subst this
      simp only [Value.isNull_arr, Value.isNull_null, Bool.false_eq_true,
        if_false, if_true] at h
      injection h with h'
      subst h'
      simp [Invocation.deserialize,
        deserSeqElement_parseU64_num (show Invocation.ID < 2 ^ 64 by decide),
        deserSeqElement_parseU64_num h1, deserSeqElement_parseU64_num h2,
      deserSeqElement_parseValue, hdet,
        validateId, deserValueIsObject, deserArgsKwargsElement,
        Value.isObject_arr, Value.isArray_arr, endOfSeq, ok_bind]
    · have hko : kwargs.isObject = true := by
        rcases Bool.or_eq_true_iff.mp hkwargs with hb | hb
        · exact hb
        · exact absurd hb hk
      obtain ⟨kl, rfl⟩ := Value.exists_of_isObject hko
      simp only [Value.isNull_arr, Value.isNull_obj, Bool.false_eq_true,
        if_false] at h
      injection h with h'
      subst h'
      simp [Invocation.deserialize,
        deserSeqElement_parseU64_num (show Invocation.ID < 2 ^ 64 by decide),
        deserSeqElement_parseU64_num h1, deserSeqElement_parseU64_num h2,
      deserSeqElement_parseValue, hdet,
        validateId, deserValueIsObject, deserArgsKwargsElement,
        Value.isObject_arr, Value.isArray_arr, Value.isObject_obj,
        Value.isArray_obj, endOfSeq, ok_bind]

/-- Round trip for WampError (args non-null whenever kwargs is non-null). -/
theorem error_roundtrip {m : WampError}
    (h1 : m.request_id < 2 ^ 64)
    (hdet : m.details.isObject = true)
    (hargs : (m.args.isArray || m.args.isNull) = true)
    (hkwargs : (m.kwargs.isObject || m.kwargs.isNull) = true)
    (hexc : m.args = .null → m.kwargs = .null) {out : List Value}
    (h : WampError.serialize m = .ok out) :
    WampError.deserialize out = .ok m := by
  obtain ⟨ev, rid, dets, errs, args, kwargs⟩ := m
  dsimp only at *
  simp only [WampError.serialize, serValueIsObject, hdet, serValueIsArgs,
    serValueIsKwargs, hargs, hkwargs, if_true, ok_bind] at h
  by_cases hn : args.isNull = true
  · have := Value.eq_null_of_isNull hn
    subst this
    have := hexc rfl
    subst this
    simp only [Value.isNull_null, if_true] at h
    injection h with h'
    subst h'
    simp [WampError.deserialize,
      deserSeqElement_parseU64_num (show WampError.ID < 2 ^ 64 by decide),
      deserSeqElement_parseU64_num h1, deserSeqElement_parseErrorEvent,
      deserSeqElement_parseString, deserSeqElement_parseValue, hdet,
      validateId, deserValueIsObject, deserArgsKwargsElement,
      endOfSeq, ok_bind]
  · have hna : args.isArray = true := by
      rcases Bool.or_eq_true_iff.mp hargs with ha | ha
      · exact ha
      · exact absurd ha hn
    obtain ⟨al, rfl⟩ := Value.exists_of_isArray hna
    by_cases hk : kwargs.isNull = true
    · have := Value.eq_null_of_isNull hk
      subst this
      simp only [Value.isNull_arr, Value.isNull_null, Bool.false_eq_true,
        if_false, if_true] at h
      injection h with h'
      subst h'
      simp [WampError.deserialize,
        deserSeqElement_parseU64_num (show WampError.ID < 2 ^ 64 by decide),
        deserSeqElement_parseU64_num h1, deserSeqElement_parseErrorEvent,
      deserSeqElement_parseString, deserSeqElement_parseValue, hdet,
        validateId, deserValueIsObject, deserArgsKwargsElement,
        Value.isObject_arr, Value.isArray_arr, endOfSeq, ok_bind]
    · have hko : kwargs.isObject = true := by
        rcases Bool.or_eq_true_iff.mp hkwargs with hb | hb
        · exact hb
        · exact absurd hb hk
      obtain ⟨kl, rfl⟩ := Value.exists_of_isObject hko
      simp only [Value.isNull_arr, Value.isNull_obj, Bool.false_eq_true,
        if_false] at h
      injection h with h'
      subst h'
      simp [WampError.deserialize,
        deserSeqElement_parseU64_num (show WampError.ID < 2 ^ 64 by decide),
        deserSeqElement_parseU64_num h1, deserSeqElement_parseErrorEvent,
      deserSeqElement_parseString, deserSeqElement_parseValue, hdet,
        validateId, deserValueIsObject, deserArgsKwargsElement,
        Value.isObject_arr, Value.isArray_arr, Value.isObject_obj,
        Value.isArray_obj, endOfSeq, ok_bind]

theorem Value.isArray_null : Value.null.isArray = false := rfl

theorem Value.isObject_null : Value.null.isObject = false := rfl

/-- Decoding the encoding of a Call whose kwargs is set but args is null
yields the same message with an empty array in place of the null args. -/
theorem call_subst_roundtrip {m : Call} (h1 : m.request_id < 2 ^ 64)
    (hopt : m.options.isObject = true) (hnull : m.args = .null)
    (hkobj : m.kwargs.isObject = true) {out : List Value}
    (h : Call.serialize m = .ok out) :
    Call.deserialize out = .ok { m with args := .arr [] } := by
  obtain ⟨rid, opts, proc, args, kwargs⟩ := m
  dsimp only at *
  subst hnull
  obtain ⟨kl, rfl⟩ := Value.exists_of_isObject hkobj
  simp only [Call.serialize, serValueIsObject, serValueIsArgs,
    serValueIsKwargs, hopt, Value.isArray_null, Value.isNull_null,
    Value.isObject_obj, Value.isNull_obj, Bool.false_or, Bool.true_or,
    Bool.false_eq_true, if_true, if_false, ok_bind] at h
  injection h with h'
  subst h'
  simp [Call.deserialize,
    deserSeqElement_parseU64_num (show Call.ID < 2 ^ 64 by decide),
    deserSeqElement_parseU64_num h1, deserSeqElement_parseString,
    deserSeqElement_parseValue, validateId, deserValueIsObject, hopt,
    deserArgsKwargsElement, Value.isObject_arr, Value.isArray_arr,
    Value.isObject_obj, Value.isArray_obj, endOfSeq, ok_bind]

/-- Decoding the encoding of a Result whose kwargs is set but args is null
yields the same message with an empty array in place of the null args. -/
theorem result_subst_roundtrip {m : WampResult} (h1 : m.request_id < 2 ^ 64)
    (hdet : m.details.isObject = true) (hnull : m.args = .null)
    (hkobj : m.kwargs.isObject = true) {out : List Value}
    (h : WampResult.serialize m = .ok out) :
    WampResult.deserialize out = .ok { m with args := .arr [] } := by
  obtain ⟨rid, dets, args, kwargs⟩ := m
  dsimp only at *
  subst hnull
  obtain ⟨kl, rfl⟩ := Value.exists_of_isObject hkobj
  simp only [WampResult.serialize, serValueIsObject, serValueIsArgs,
    serValueIsKwargs, hdet, Value.isArray_null, Value.isNull_null,
    Value.isObject_obj, Value.isNull_obj, Bool.false_or, Bool.true_or,
    Bool.false_eq_true, if_true, if_false, ok_bind] at h
  injection h with h'
  subst h'
  simp [WampResult.deserialize,
    deserSeqElement_parseU64_num (show WampResult.ID < 2 ^ 64 by decide),
    deserSeqElement_parseU64_num h1, deserSeqElement_parseValue,
    validateId, deserValueIsObject, hdet, deserArgsKwargsElement,
    Value.isObject_arr, Value.isArray_arr, Value.isObject_obj,
    Value.isArray_obj, endOfSeq, ok_bind]

/-- C2 counterexample: the codec's own test frame — a Result with kwargs set
and args null encodes with `[]` substituted for args, and decoding that
encoding yields args `[]`, not the original null, so the round trip fails
exactly in the case the claim singles out. -/
theorem roundtrip_counterexample :
    WampResult.serialize
      { request_id := 7814135, details := .obj [], args := .null,
        kwargs := .obj [("userid", .num 123), ("karma", .num 10)] } =
      .ok [.num WampResult.ID, .num 7814135, .obj [], .arr [],
        .obj [("userid", .num 123), ("karma", .num 10)]] ∧
    WampResult.deserialize [.num WampResult.ID, .num 7814135, .obj [],
        .arr [], .obj [("userid", .num 123), ("karma", .num 10)]] =
      .ok
      { request_id := 7814135, details := .obj [], args := .arr [],
        kwargs := .obj [("userid", .num 123), ("karma", .num 10)] } ∧
    Value.arr [] ≠ Value.null :=
  ⟨rfl, rfl, fun hx => nomatch hx⟩

/-- C2 amended: for every known message type, a value the encoder accepts
round-trips exactly, provided its map fields are map-shaped (which the
Subscribe/Register/Event/Invocation encoders do not check but decoding
requires), its numeric fields are `u64`-representable, and its args is
non-null whenever its kwargs is non-null; in the excluded case the decoded
value equals the original with args replaced by the empty array. -/
theorem message_roundtrip :
    (∀ (m : Hello) (out : List Value), m.details.isObject = true →
      Hello.serialize m = .ok out → Hello.deserialize out = .ok m) ∧
    (∀ (m : Welcome) (out : List Value), m.session < 2 ^ 64 →
      m.details.isObject = true →
      Welcome.serialize m = .ok out → Welcome.deserialize out = .ok m) ∧
    (∀ (m : Abort) (out : List Value), m.details.isObject = true →
      Abort.serialize m = .ok out → Abort.deserialize out = .ok m) ∧
    (∀ (m : Goodbye) (out : List Value), m.details.isObject = true →
      Goodbye.serialize m = .ok out → Goodbye.deserialize out = .ok m) ∧
    (∀ (m : Challenge) (out : List Value), m.details.isObject = true →
      Challenge.serialize m = .ok out → Challenge.deserialize out = .ok m) ∧
    (∀ (m : Authenticate) (out : List Value), m.details.isObject = true →
      Authenticate.serialize m = .ok out →
      Authenticate.deserialize out = .ok m) ∧
    (∀ (m : Cancel) (out : List Value), m.request_id < 2 ^ 64 →
      m.options.isObject = true →
      Cancel.serialize m = .ok out → Cancel.deserialize out = .ok m) ∧
    (∀ (m : Interrupt) (out : List Value), m.request_id < 2 ^ 64 →
      m.options.isObject = true →
      Interrupt.serialize m = .ok out → Interrupt.deserialize out = .ok m) ∧
    (∀ (m : Subscribe) (out : List Value), m.request_id < 2 ^ 64 →
      m.options.isObject = true →
      Subscribe.serialize m = .ok out → Subscribe.deserialize out = .ok m) ∧
    (∀ (m : Register) (out : List Value), m.request_id < 2 ^ 64 →
      m.options.isObject = true →
      Register.serialize m = .ok out → Register.deserialize out = .ok m) ∧
    (∀ (m : Published) (out : List Value), m.request_id < 2 ^ 64 →
      m.publication < 2 ^ 64 →
      Published.serialize m = .ok out → Published.deserialize out = .ok m) ∧
    (∀ (m : Registered) (out : List Value), m.request_id < 2 ^ 64 →
      m.registration < 2 ^ 64 →
      Registered.serialize m = .ok out →
      Registered.deserialize out = .ok m) ∧
    (∀ (m : Subscribed) (out : List Value), m.request_id < 2 ^ 64 →
      m.subscription < 2 ^ 64 →
      Subscribed.serialize m = .ok out →
      Subscribed.deserialize out = .ok m) ∧
    (∀ (m : Unregister) (out : List Value), m.request_id < 2 ^ 64 →
      m.registration < 2 ^ 64 →
      Unregister.serialize m = .ok out →
      Unregister.deserialize out = .ok m) ∧
    (∀ (m : Unregistered) (out : List Value), m.request_id < 2 ^ 64 →
      Unregistered.serialize m = .ok out →
      Unregistered.deserialize out = .ok m) ∧
    (∀ (m : Unsubscribe) (out : List Value), m.request_id < 2 ^ 64 →
      m.subscription < 2 ^ 64 →
      Unsubscribe.serialize m = .ok out →
      Unsubscribe.deserialize out = .ok m) ∧
    (∀ (m : Unsubscribed) (out : List Value), m.request_id < 2 ^ 64 →
      Unsubscribed.serialize m = .ok out →
      Unsubscribed.deserialize out = .ok m) ∧
    (∀ (m : Call) (out : List Value), m.request_id < 2 ^ 64 →
      m.options.isObject = true → (m.args.isArray || m.args.isNull) = true →
      (m.kwargs.isObject || m.kwargs.isNull) = true →
      (m.args = .null → m.kwargs = .null) →
      Call.serialize m = .ok out → Call.deserialize out = .ok m) ∧
    (∀ (m : Publish) (out : List Value), m.request_id < 2 ^ 64 →
      m.options.isObject = true → (m.args.isArray || m.args.isNull) = true →
      (m.kwargs.isObject || m.kwargs.isNull) = true →
      (m.args = .null → m.kwargs = .null) →
      Publish.serialize m = .ok out → Publish.deserialize out = .ok m) ∧
    (∀ (m : Event) (out : List Value), m.subscription < 2 ^ 64 →
      m.publication < 2 ^ 64 → m.details.isObject = true →
      (m.args.isArray || m.args.isNull) = true →
      (m.kwargs.isObject || m.kwargs.isNull) = true →
      (m.args = .null → m.kwargs = .null) →
      Event.serialize m = .ok out → Event.deserialize out = .ok m) ∧
    (∀ (m : Invocation) (out : List Value), m.request_id < 2 ^ 64 →
      m.registration < 2 ^ 64 → m.details.isObject = true →
      (m.args.isArray || m.args.isNull) = true →
      (m.kwargs.isObject || m.kwargs.isNull) = true →
      (m.args = .null → m.kwargs = .null) →
      Invocation.serialize m = .ok out →
      Invocation.deserialize out = .ok m) ∧
    (∀ (m : Yield) (out : List Value), m.request_id < 2 ^ 64 →
      m.options.isObject = true → (m.args.isArray || m.args.isNull) = true →
      (m.kwargs.isObject || m.kwargs.isNull) = true →
      (m.args = .null → m.kwargs = .null) →
      Yield.serialize m = .ok out → Yield.deserialize out = .ok m) ∧
    (∀ (m : WampResult) (out : List Value), m.request_id < 2 ^ 64 →
      m.details.isObject = true → (m.args.isArray || m.args.isNull) = true →
      (m.kwargs.isObject || m.kwargs.isNull) = true →
      (m.args = .null → m.kwargs = .null) →
      WampResult.serialize m = .ok out →
      WampResult.deserialize out = .ok m) ∧
    (∀ (m : WampError) (out : List Value), m.request_id < 2 ^ 64 →
      m.details.isObject = true → (m.args.isArray || m.args.isNull) = true →
      (m.kwargs.isObject || m.kwargs.isNull) = true →
      (m.args = .null → m.kwargs = .null) →
      WampError.serialize m = .ok out →
      WampError.deserialize out = .ok m) ∧
    (∀ (m : Call) (out : List Value), m.request_id < 2 ^ 64 →
      m.options.isObject = true → m.args = .null →
      m.kwargs.isObject = true → Call.serialize m = .ok out →
      Call.deserialize out = .ok { m with args := .arr [] }) ∧
    (∀ (m : WampResult) (out : List Value), m.request_id < 2 ^ 64 →
      m.details.isObject = true → m.args = .null →
      m.kwargs.isObject = true → WampResult.serialize m = .ok out →
      WampResult.deserialize out = .ok { m with args := .arr [] }) :=
  ⟨fun m out ha hb => hello_roundtrip ha hb,
    fun m out ha hb hc => welcome_roundtrip ha hb hc,
    fun m out ha hb => abort_roundtrip ha hb,
    fun m out ha hb => goodbye_roundtrip ha hb,
    fun m out ha hb => challenge_roundtrip ha hb,
    fun m out ha hb => authenticate_roundtrip ha hb,
    fun m out ha hb hc => cancel_roundtrip ha hb hc,
    fun m out ha hb hc => interrupt_roundtrip ha hb hc,
    fun m out ha hb hc => subscribe_roundtrip ha hb hc,
    fun m out ha hb hc => register_roundtrip ha hb hc,
    fun m out ha hb hc => published_roundtrip ha hb hc,
    fun m out ha hb hc => registered_roundtrip ha hb hc,
    fun m out ha hb hc => subscribed_roundtrip ha hb hc,
    fun m out ha hb hc => unregister_roundtrip ha hb hc,
    fun m out ha hb => unregistered_roundtrip ha hb,
    fun m out ha hb hc => unsubscribe_roundtrip ha hb hc,
    fun m out ha hb => unsubscribed_roundtrip ha hb,
    fun m out ha hb hc hd he hf => call_roundtrip ha hb hc hd he hf,
    fun m out ha hb hc hd he hf => publish_roundtrip ha hb hc hd he hf,
    fun m out ha hb hc hd he hf hg => event_roundtrip ha hb hc hd he hf hg,
    fun m out ha hb hc hd he hf hg =>
      invocation_roundtrip ha hb hc hd he hf hg,
    fun m out ha hb hc hd he hf => yield_roundtrip ha hb hc hd he hf,
    fun m out ha hb hc hd he hf => result_roundtrip ha hb hc hd he hf,
    fun m out ha hb hc hd he hf => error_roundtrip ha hb hc hd he hf,
    fun m out ha hb hc hd he => call_subst_roundtrip ha hb hc hd he,
    fun m out ha hb hc hd he => result_subst_roundtrip ha hb hc hd he⟩

/-- Witness for `message_roundtrip`: the specification's concrete Call
frame round-trips, a Published frame round-trips, and the substitution
clause at the Result frame of the crate's own test. -/
theorem message_roundtrip_witness :
    Call.deserialize [.num Call.ID, .num 7814135, .obj [],
        .str "com.myapp.user.new", .arr [.str "johnny"],
        .obj [("firstname", .str "John"), ("surname", .str "Doe")]] =
      .ok
      { request_id := 7814135, options := .obj [],
        procedure := "com.myapp.user.new", args := .arr [.str "johnny"],
        kwargs := .obj [("firstname", .str "John"),
          ("surname", .str "Doe")] } ∧
    Published.deserialize [.num Published.ID, .num 17, .num 2] =
      .ok { request_id := 17, publication := 2 } ∧
    WampResult.deserialize [.num WampResult.ID, .num 7814135, .obj [],
        .arr [], .obj [("userid", .num 123), ("karma", .num 10)]] =
      .ok
      { request_id := 7814135, details := .obj [], args := .arr [],
        kwargs := .obj [("userid", .num 123), ("karma", .num 10)] } :=
  ⟨message_roundtrip.2.2.2.2.2.2.2.2.2.2.2.2.2.2.2.2.2.1
      { request_id := 7814135, options := .obj [],
        procedure := "com.myapp.user.new", args := .arr [.str "johnny"],
        kwargs := .obj [("firstname", .str "John"),
          ("surname", .str "Doe")] }
      [.num Call.ID, .num 7814135, .obj [], .str "com.myapp.user.new",
        .arr [.str "johnny"],
        .obj [("firstname", .str "John"), ("surname", .str "Doe")]]
      (by decide) rfl rfl rfl (fun hx => nomatch hx) rfl,
    message_roundtrip.2.2.2.2.2.2.2.2.2.2.1
      { request_id := 17, publication := 2 }
      [.num Published.ID, .num 17, .num 2] (by decide) (by decide) rfl,
    message_roundtrip.2.2.2.2.2.2.2.2.2.2.2.2.2.2.2.2.2.2.2.2.2.2.2.2.2
      { request_id := 7814135, details := .obj [], args := .null,
        kwargs := .obj [("userid", .num 123), ("karma", .num 10)] }
      [.num WampResult.ID, .num 7814135, .obj [], .arr [],
        .obj [("userid", .num 123), ("karma", .num 10)]]
      (by decide) rfl rfl rfl rfl⟩
